import Mathlib

/-!
Shallow embedding of the air-emissions regional intelligence system
(raster normalization, pollution classification, UPES scoring, alert
detection, satellite-broker retry logic, ingestion tasks, route
pathfinding), with theorems checking the natural-language specification
against the code.

Numeric values that the Python code holds in IEEE floats are modelled as
exact rationals (ℚ); NaN cells are modelled as `Option.none`.  Machine
integers are modelled as ℤ / ℕ.
-/

namespace Aeris

/-- Python `int(q)` on a float/rational: truncation toward zero. -/
def pyInt (q : ℚ) : ℤ :=
  if 0 ≤ q then ⌊q⌋ else ⌈q⌉

/-- Round a rational to the nearest integer, ties to even
(IEEE/Python `round` semantics). -/
def roundHalfEven (q : ℚ) : ℤ :=
  let f : ℤ := ⌊q⌋
  let r : ℚ := q - f
  if r < 1/2 then f
  else if 1/2 < r then f + 1
  else if f % 2 = 0 then f else f + 1

/-- Python `round(q, n)`: round to `n` decimal places, ties to even. -/
def pyRound (q : ℚ) (n : ℕ) : ℚ :=
  (roundHalfEven (q * 10 ^ n) : ℚ) / 10 ^ n

/-- `np.clip(x, lo, hi)`. -/
def clip (x lo hi : ℚ) : ℚ :=
  max lo (min x hi)

/-- Python `a or b` for an optional numeric `a` (both `None` and `0` are
falsy): used for `edge.get("length_m") or ...` style defaulting. -/
def pyOrQ (a : Option ℚ) (b : ℚ) : ℚ :=
  match a with
  | some v => if v = 0 then b else v
  | none => b

/-! ## pollution_utils.py -/

/-- Per-gas thresholds: (moderate, unhealthy, very_unhealthy, hazardous). -/
structure Thresholds where
  moderate : ℚ
  unhealthy : ℚ
  very_unhealthy : ℚ
  hazardous : ℚ
deriving DecidableEq, Repr

/-- `POLLUTION_THRESHOLDS` from pollution_utils.py. -/
def POLLUTION_THRESHOLDS : List (String × Thresholds) :=
  [ ("NO2", ⟨5 * 10 ^ 15, 1 * 10 ^ 16, 2 * 10 ^ 16, 3 * 10 ^ 16⟩),
    ("CH2O", ⟨8 * 10 ^ 15, 16 * 10 ^ 15, 32 * 10 ^ 15, 64 * 10 ^ 15⟩),
    ("AI", ⟨1, 2, 4, 7⟩),
    ("PM", ⟨1/5, 1/2, 1, 2⟩),
    ("O3", ⟨220, 280, 400, 500⟩) ]

/-- The threshold cascade of `classify_pollution_level`. -/
def classify_core (t : Thresholds) (v : ℚ) : String × ℕ :=
  if t.hazardous ≤ v then ("hazardous", 4)
  else if t.very_unhealthy ≤ v then ("very_unhealthy", 3)
  else if t.unhealthy ≤ v then ("unhealthy", 2)
  else if t.moderate ≤ v then ("moderate", 1)
  else ("good", 0)

/-- `classify_pollution_level(value, gas)` from pollution_utils.py.
A NaN value is modelled as `none`. -/
def classify_pollution_level (value : Option ℚ) (gas : String) : String × ℕ :=
  match value, (POLLUTION_THRESHOLDS.lookup gas) with
  | none, _ => ("no_data", 0)
  | _, none => ("no_data", 0)
  | some v, some t => classify_core t v

/-! ## services/raster_normalizer.py -/

/-- Affine transform of a GeoTIFF: `transform[0] = a` (pixel width),
`transform[4] = e` (negative pixel height), `c`/`f` the origin, as in
rasterio; `xy(transform, row, col)` returns the center of pixel
`(row, col)`. -/
structure Affine where
  a : ℚ
  b : ℚ
  c : ℚ
  d : ℚ
  e : ℚ
  f : ℚ
deriving DecidableEq, Repr

/-- rasterio `xy(transform, row, col)` with the default `offset="center"`:
the (lon, lat) of the pixel center. -/
def affine_xy (t : Affine) (row col : ℚ) : ℚ × ℚ :=
  (t.c + t.a * (col + 1/2) + t.b * (row + 1/2),
   t.f + t.d * (col + 1/2) + t.e * (row + 1/2))

/-- `_pixel_bounds(transform, col, row)` from raster_normalizer.py:
(lon_min, lat_min, lon_max, lat_max) around the pixel center. -/
def pixel_bounds (t : Affine) (col row : ℕ) : ℚ × ℚ × ℚ × ℚ :=
  let p := affine_xy t row col
  let dx0 := |t.a|
  let dy0 := |t.e|
  let dx := if dx0 ≤ 0 then 1/40 else dx0
  let dy := if dy0 ≤ 0 then 1/40 else dy0
  (p.1 - dx / 2, p.2 - dy / 2, p.1 + dx / 2, p.2 + dy / 2)

/-- One row dict produced by `geotiff_to_grid_rows` (the WKT polygon
string `geom_wkt` is the textual rendering of the `bounds` corners from
`_cell_to_wkt`, kept here as the four numbers). The timestamp is carried
unchanged and is represented by a `ℕ` tag. -/
structure GridRow where
  timestamp : ℕ
  gas_type : String
  bounds : ℚ × ℚ × ℚ × ℚ
  pollution_value : ℚ
  severity_level : ℕ
deriving DecidableEq, Repr

/-- Loop body state for `geotiff_to_grid_rows`: accumulated rows. -/
def emitPixel (band : List (List (Option ℚ))) (t : Affine) (gas : String)
    (ts : ℕ) (maxCells : ℕ) (acc : List GridRow) (i j : ℕ) : List GridRow :=
  if maxCells ≤ acc.length then acc
  else
    match (band.getD i []).getD j none with
    | none => acc
    | some val =>
      let sev := (classify_pollution_level (some val) gas).2
      acc ++ [{ timestamp := ts, gas_type := gas,
                bounds := pixel_bounds t j i,
                pollution_value := val, severity_level := sev }]

/-- The subsample step chosen by `geotiff_to_grid_rows`:
`int((total_pixels / max_cells) ** 0.5)` is `Nat.sqrt` of the integer
quotient (for positive arguments `⌊√(t/m)⌋ = Nat.sqrt (t / m)`). -/
def chooseStep (subsample : Option ℕ) (totalPixels maxCells : ℕ) : ℕ :=
  match subsample with
  | some s => max 1 s
  | none =>
    if maxCells < totalPixels then max 1 (Nat.sqrt (totalPixels / maxCells))
    else 1

/-- `geotiff_to_grid_rows(path, gas, ts, subsample, max_cells, chunk_size)`
from raster_normalizer.py, flattened: the generator yields these rows
grouped into chunks of at most `chunk_size`; the flat list of emitted rows
is what the claims are about.  `band` is the raster band with `none` for
NaN pixels; pixels are scanned row-major with stride `step`, stopping once
`max_cells` rows were emitted. -/
def geotiff_to_grid_rows (band : List (List (Option ℚ))) (t : Affine)
    (gas : String) (ts : ℕ) (subsample : Option ℕ) (maxCells : ℕ) :
    List GridRow :=
  let height := band.length
  let width := (band.getD 0 []).length
  let step := chooseStep subsample (height * width) maxCells
  let is := (List.range height).filter (fun i => i % step = 0)
  let js := (List.range width).filter (fun j => j % step = 0)
  is.foldl (fun acc i => js.foldl (fun acc j => emitPixel band t gas ts maxCells acc i j) acc) []

/-! ## services/upes/grid_aggregation.py -/

/-- `GridSpec` dataclass. -/
structure GridSpec where
  west : ℚ
  south : ℚ
  east : ℚ
  north : ℚ
  resolution_deg : ℚ
  nx : ℤ
  ny : ℤ
deriving DecidableEq, Repr

/-- `GridSpec.from_bbox`. -/
def GridSpec.from_bbox (west south east north resolution_deg : ℚ) : GridSpec :=
  { west := west, south := south, east := east, north := north,
    resolution_deg := resolution_deg,
    nx := max 1 (pyInt ((east - west) / resolution_deg)),
    ny := max 1 (pyInt ((north - south) / resolution_deg)) }

/-- `GridSpec.cell_index(lon, lat)`: clamped (row, col). -/
def GridSpec.cell_index (g : GridSpec) (lon lat : ℚ) : ℤ × ℤ :=
  let j := pyInt ((lon - g.west) / g.resolution_deg)
  let i := pyInt ((lat - g.south) / g.resolution_deg)
  (max 0 (min i (g.ny - 1)), max 0 (min j (g.nx - 1)))

/-- One row of the aggregation query: (gas_type, lon, lat, pollution_value),
lon/lat the centroid of the cell geometry; the SQL bbox/time filter is
applied by the database, so the row list is already the filtered set. -/
structure AggRow where
  gas : String
  lon : ℚ
  lat : ℚ
  val : ℚ
deriving DecidableEq, Repr

/-- Association-list update used to model the nested `accum` defaultdict:
`accum[gas][(i,j)] = (s + val, c + 1)` starting at `(0, 0)`. -/
def bumpCell (cells : List ((ℤ × ℤ) × (ℚ × ℕ))) (ij : ℤ × ℤ) (val : ℚ) :
    List ((ℤ × ℤ) × (ℚ × ℕ)) :=
  match cells with
  | [] => [(ij, (val, 1))]
  | (k, (s, c)) :: rest =>
    if k = ij then (k, (s + val, c + 1)) :: rest
    else (k, (s, c)) :: bumpCell rest ij val

/-- Outer defaultdict update: `accum[gas]` bucket. -/
def bumpGas (accum : List (String × List ((ℤ × ℤ) × (ℚ × ℕ))))
    (gas : String) (ij : ℤ × ℤ) (val : ℚ) :
    List (String × List ((ℤ × ℤ) × (ℚ × ℕ))) :=
  match accum with
  | [] => [(gas, bumpCell [] ij val)]
  | (g, cells) :: rest =>
    if g = gas then (g, bumpCell cells ij val) :: rest
    else (g, cells) :: bumpGas rest gas ij val

/-- The `accum` pass of `aggregate_pollution_grid_to_regular`. -/
def aggAccum (spec : GridSpec) (rows : List AggRow) :
    List (String × List ((ℤ × ℤ) × (ℚ × ℕ))) :=
  rows.foldl (fun accum r => bumpGas accum r.gas (spec.cell_index r.lon r.lat) r.val) []

/-- A per-gas output array: `(ny, nx)` grid stored row-major as a list of
cells, `none` where no data (NaN). -/
def GridArray := List (Option ℚ)

/-- Build the `(ny, nx)` output array of a gas from its accumulated cells:
`np.full(nan)` then `arr[i, j] = s / c` at each accumulated cell. -/
def buildArray (spec : GridSpec) (cells : List ((ℤ × ℤ) × (ℚ × ℕ))) :
    List (Option ℚ) :=
  (List.range (spec.ny.toNat * spec.nx.toNat)).map (fun idx =>
    let i : ℤ := idx / spec.nx.toNat
    let j : ℤ := idx % spec.nx.toNat
    match cells.lookup (i, j) with
    | some (s, c) => if 0 < c then some (s / c) else none
    | none => none)

/-- `aggregate_pollution_grid_to_regular(session, ts_start, ts_end, west,
south, east, north, resolution_deg)`: the query result `rows` is passed
in (the DB holds the filtering); returns the spec and the per-gas
arrays. -/
def aggregate_pollution_grid_to_regular (rows : List AggRow)
    (west south east north resolution_deg : ℚ) :
    GridSpec × List (String × List (Option ℚ)) :=
  let spec := GridSpec.from_bbox west south east north resolution_deg
  (spec, (aggAccum spec rows).map (fun gc => (gc.1, buildArray spec gc.2)))

/-! ## services/upes/preprocessing.py -/

/-- `normalize_gas(gas_array, min_val, max_val)` on an array: if
`max_val ≤ min_val` the result is `np.zeros_like` (zero at every cell,
NaN positions included); otherwise `clip((v - min)/(max - min), 0, 1)`
with NaN cells staying NaN. -/
def normalize_gas (arr : List (Option ℚ)) (min_val max_val : ℚ) :
    List (Option ℚ) :=
  if max_val ≤ min_val then arr.map (fun _ => some 0)
  else arr.map (fun c => c.map (fun v => clip ((v - min_val) / (max_val - min_val)) 0 1))

/-- `np.nanpercentile(valid, q)` with the default linear interpolation,
over the sorted list of valid values. -/
def nanpercentile (sorted : List ℚ) (q : ℚ) : ℚ :=
  let n := sorted.length
  let idx : ℚ := (n - 1 : ℕ) * q / 100
  let lo : ℕ := (pyInt idx).toNat
  let frac : ℚ := idx - lo
  let vlo := sorted.getD lo 0
  let vhi := sorted.getD (lo + 1) vlo
  vlo + frac * (vhi - vlo)

/-- `percentile_bounds(arr, low_percentile, high_percentile)`. -/
def percentile_bounds (arr : List (Option ℚ)) (low_p high_p : ℚ) : ℚ × ℚ :=
  let valid := (arr.filterMap id).mergeSort (fun a b => a ≤ b)
  if valid.length = 0 then (0, 1)
  else
    let min_g := nanpercentile valid low_p
    let max_g := nanpercentile valid high_p
    if max_g ≤ min_g then (min_g, min_g + 1) else (min_g, max_g)

/-- `normalize_gas_with_bounds(gas_array, use_percentiles=True)` as the
UPES task calls it (no explicit bounds, percentile bounds 5/95). -/
def normalize_gas_with_bounds (arr : List (Option ℚ)) : List (Option ℚ) :=
  let mm := percentile_bounds arr 5 95
  normalize_gas arr mm.1 mm.2

/-! ## services/upes/core.py -/

/-- `UPES_DEFAULT_WEIGHTS` from config.py. -/
def UPES_DEFAULT_WEIGHTS : List (String × ℚ) :=
  [("NO2", 3/10), ("PM", 7/20), ("O3", 1/5), ("CH2O", 1/10), ("AI", 1/20)]

/-- numpy elementwise `w * arr` (NaN stays NaN). -/
def scaleArr (w : ℚ) (arr : List (Option ℚ)) : List (Option ℚ) :=
  arr.map (fun c => c.map (fun v => w * v))

/-- numpy elementwise `a + b` on same-shape arrays (NaN propagates). -/
def addArr (a b : List (Option ℚ)) : List (Option ℚ) :=
  List.zipWith (fun x y =>
    match x, y with
    | some u, some v => some (u + v)
    | _, _ => none) a b

/-- `compute_satellite_score(normalized_gases, weights)` from
services/upes/core.py: fold `out = out + w * arr` over the gases present,
skipping gases whose weight is `≤ 0` (an absent gas has weight 0 via
`weights.get(gas, 0.0)`); `None` at the end becomes the scalar
`np.array(0.0)`, modelled as the one-cell array `[some 0]`. -/
def compute_satellite_score (normalized_gases : List (String × List (Option ℚ)))
    (weights : Option (List (String × ℚ))) : List (Option ℚ) :=
  let ws := weights.getD UPES_DEFAULT_WEIGHTS
  let out := normalized_gases.foldl (fun out gc =>
    let w := (ws.lookup gc.1).getD 0
    if w ≤ 0 then out
    else
      match out with
      | none => some (scaleArr w gc.2)
      | some o => some (addArr o (scaleArr w gc.2))) none
  out.getD [some 0]

/-- `humidity_dispersion_factor(humidity_pct)`. -/
def humidity_dispersion_factor (humidity_pct : ℚ) : ℚ :=
  clip (1 - humidity_pct / 100) 0 1

/-- `traffic_factor(traffic_density, alpha)` with the default
`upes_traffic_alpha = 0.1`. -/
def traffic_factor (traffic_density : ℚ) (alpha : Option ℚ) : ℚ :=
  1 + alpha.getD (1/10) * clip traffic_density 0 1

/-- `apply_ema(current_score, previous_score, lam)`: identical shape
(list length) required, else the current score is returned (copied). -/
def apply_ema (current_score : List (Option ℚ)) (previous_score : Option (List (Option ℚ)))
    (lam : ℚ) : List (Option ℚ) :=
  match previous_score with
  | none => current_score
  | some prev =>
    if prev.length ≠ current_score.length then current_score
    else
      List.zipWith (fun c p =>
        match c, p with
        | some cv, some pv => some (lam * cv + (1 - lam) * pv)
        | _, _ => none) current_score prev

/-- `compute_final_score(satellite_score, hdf, wtf, tf, previous_final,
ema_lambda)`: `raw = satellite_score * hdf * wtf * tf`, then EMA when a
lambda is configured in (0, 1]. -/
def compute_final_score (satellite_score : List (Option ℚ)) (hdf wtf tf : ℚ)
    (previous_final : Option (List (Option ℚ))) (ema_lambda : Option ℚ) :
    List (Option ℚ) :=
  let raw := satellite_score.map (fun c => c.map (fun v => v * hdf * wtf * tf))
  match ema_lambda with
  | some lam => if 0 < lam ∧ lam ≤ 1 then apply_ema raw previous_final lam else raw
  | none => raw

/-! ## services/alerts/constants.py -/

/-- `SENSITIVITY_SCALE`. -/
def SENSITIVITY_SCALE : List (ℤ × ℚ) :=
  [(1, 1), (2, 1), (3, 7/10), (4, 7/10), (5, 1/2)]

/-- `get_sensitivity_scale(level)`. -/
def get_sensitivity_scale (level : Option ℤ) : ℚ :=
  match level with
  | none => 1
  | some l => (SENSITIVITY_SCALE.lookup l).getD 1

/-! ## services/alerts/detection.py -/

/-- The alert dict returned by `check_route_deterioration` (its `type`
field is the constant "route_deterioration"). -/
structure DeteriorationAlert where
  score_before : ℚ
  score_after : ℚ
  threshold : ℚ
  delta_pct : ℚ
deriving DecidableEq, Repr

/-- `check_route_deterioration(prev_score, curr_score,
user_sensitivity_level, base_pct)`; the settings default
`alerts_deterioration_base_pct` is 0.15. -/
def check_route_deterioration (prev_score : Option ℚ) (curr_score : ℚ)
    (user_sensitivity_level : Option ℤ) (base_pct : Option ℚ) :
    Option DeteriorationAlert :=
  match prev_score with
  | none => none
  | some prev =>
    if prev ≤ 0 then none
    else
      let base := base_pct.getD (3/20)
      let scale := get_sensitivity_scale user_sensitivity_level
      let effective_pct := base * scale
      let delta_pct := (curr_score - prev) / prev
      if effective_pct ≤ delta_pct then
        some { score_before := prev, score_after := curr_score,
               threshold := effective_pct, delta_pct := pyRound delta_pct 4 }
      else none

/-! ## services/harmony_service.py -/

/-- One HTTP response from the Harmony broker, reduced to the fields
`submit_request` inspects. -/
structure HResponse where
  status : ℕ
  location : Option String
  isJson : Bool
  jobID : Option String
  dataHref : Option String
deriving DecidableEq, Repr

/-- Outcome of `_request_with_retry`: either a returned response (with
the attempt index it was returned on) or a raised exception; `delays`
are the `time.sleep` durations performed, in seconds. -/
inductive RetryResult where
  | returned (r : HResponse) (attempt : ℕ) (delays : List ℚ)
  | raised (attempt : ℕ) (delays : List ℚ)
deriving DecidableEq, Repr

/-- The statuses `_request_with_retry` retries on. -/
def RETRYABLE_STATUSES : List ℕ := [429, 500, 502, 503]

/-- The retry loop of `_request_with_retry`: `resps attempt` is the
response of attempt number `attempt` (`none` models a
`requests.RequestException`).  On a retryable status at the last attempt
`r.raise_for_status()` raises (all retryable statuses are ≥ 400).  The
fuel equals the loop bound; fuel 0 is the unreachable fall-through
`return r`. -/
def retryGo (resps : ℕ → Option HResponse) (maxRetries attempt : ℕ)
    (delays : List ℚ) : ℕ → RetryResult
  | 0 => .raised attempt delays
  | fuel + 1 =>
    match resps attempt with
    | none =>
      if attempt = maxRetries - 1 then .raised attempt delays
      else retryGo resps maxRetries (attempt + 1) (delays ++ [2 ^ attempt]) fuel
    | some r =>
      if r.status ∈ RETRYABLE_STATUSES then
        if attempt = maxRetries - 1 then .raised attempt delays
        else retryGo resps maxRetries (attempt + 1) (delays ++ [10 * 2 ^ attempt]) fuel
      else .returned r attempt delays

/-- `_request_with_retry(method, url, headers, max_retries=3)`. -/
def request_with_retry (resps : ℕ → Option HResponse) (maxRetries : ℕ := 3) :
    RetryResult :=
  retryGo resps maxRetries 0 [] maxRetries

/-- Result of `submit_request(url, token)`. -/
inductive SubmitOutcome where
  | asyncRedirect (jobUrl : String)
  | asyncJob (jobUrl : String)
  | syncData (href : String)
  | syncBody
  | noneTriple
  | raisedStatus (s : ℕ)
  | raisedNetwork
deriving DecidableEq, Repr

/-- `submit_request(url, token)` from harmony_service.py: a GET through
`_request_with_retry`, then dispatch on the returned status
(302/303/307 with a Location → async job; 200 JSON with jobID → async
job; 200 JSON with a data link → sync href; other 200 → binary body;
else `r.raise_for_status()`, which raises exactly for 400 ≤ status <
600). -/
def submit_request (resps : ℕ → Option HResponse) : SubmitOutcome :=
  match request_with_retry resps 3 with
  | .raised _ _ => .raisedNetwork
  | .returned r _ _ =>
    if r.status ∈ [302, 303, 307] ∧ r.location.isSome then
      .asyncRedirect (r.location.getD "")
    else if r.status = 200 then
      if r.isJson then
        match r.jobID with
        | some jid => .asyncJob ("jobs/" ++ jid)
        | none =>
          match r.dataHref with
          | some href => .syncData href
          | none => .syncBody
      else .syncBody
    else if 400 ≤ r.status ∧ r.status < 600 then .raisedStatus r.status
    else .noneTriple

/-! ## tasks/pollution_tasks.py — fetch_tempo_hourly -/

/-- What happened for one gas inside the per-gas `try` of
`fetch_tempo_hourly`: the fetch (or any later step) raised, the fetch
found no granule (`path` is None), or chunks of rows were inserted
(chunk sizes listed; on `failed`, `committed` are the chunk sizes whose
`session.commit()` succeeded before the exception). -/
inductive GasOutcome where
  | failed (committed : List ℕ)
  | noData
  | ok (chunks : List ℕ)
deriving DecidableEq, Repr

/-- Rows the run inserted for one gas. -/
def insertedOf : GasOutcome → ℕ
  | .failed committed => committed.sum
  | .noData => 0
  | .ok chunks => chunks.sum

/-- The observable result of one `fetch_tempo_hourly` run. -/
structure IngestResult where
  inserted : ℕ
  gases : List String
  markerSet : Bool
  markerTTL : ℕ
  recomputeChained : Bool
  upesChained : Bool
deriving DecidableEq, Repr

/-- `fetch_tempo_hourly` from tasks/pollution_tasks.py over the per-gas
outcomes of this run: each gas is processed inside its own
`try/except`, so a failing gas only loses its own rows; after the loop
the Redis marker `tempo:last_update` (TTL 3600 s, requires a configured
`redis_url`) and the two chained tasks fire only when `inserted_total >
0`. -/
def fetch_tempo_hourly (outcomes : List (String × GasOutcome))
    (redisConfigured : Bool) : IngestResult :=
  let inserted := outcomes.foldl (fun acc go => acc + insertedOf go.2) 0
  { inserted := inserted,
    gases := outcomes.map (fun go => go.1),
    markerSet := decide (0 < inserted) && redisConfigured,
    markerTTL := 3600,
    recomputeChained := decide (0 < inserted),
    upesChained := decide (0 < inserted) }

/-! ## tasks/pollution_tasks.py — compute_upes_hourly -/

/-- Task status record: `{status: skipped, reason}` or `{status: ok}`. -/
inductive TaskStatus where
  | skipped (reason : String)
  | ok
deriving DecidableEq, Repr

/-- Environment of one `compute_upes_hourly` run: settings flag, the
`MAX(timestamp)` query result, the window/bbox query rows, the bbox and
resolution, the weather-derived inputs (`wtf` is the value of
`wind_factor(wind_kph, wind_degree, 0.0)`, a transcendental function of
the external weather lookup, supplied here as an input), the previous
final-score raster if its file exists, and the EMA lambda setting. -/
structure UpesEnv where
  upes_enabled : Bool
  maxTs : Option ℕ
  rows : List AggRow
  west : ℚ
  south : ℚ
  east : ℚ
  north : ℚ
  resolution : ℚ
  humidity_pct : ℚ
  wtf : ℚ
  previousRaster : Option (List (Option ℚ))
  ema_lambda : Option ℚ

/-- `compute_upes_hourly` from tasks/pollution_tasks.py: returns the
status record, the list of files written (rasters + JSON log), and the
final-score array.  Skip paths return before anything is written. -/
def compute_upes_hourly (env : UpesEnv) :
    TaskStatus × List String × List (Option ℚ) :=
  if env.upes_enabled = false then (.skipped "disabled", [], [])
  else
    match env.maxTs with
    | none => (.skipped "no_data", [], [])
    | some _ =>
      let sg := aggregate_pollution_grid_to_regular env.rows
        env.west env.south env.east env.north env.resolution
      let spec := sg.1
      let gasArrays := sg.2
      if gasArrays.isEmpty then (.skipped "no_gas_data", [], [])
      else
        let normalized := gasArrays.map (fun g => (g.1, normalize_gas_with_bounds g.2))
        let sat := compute_satellite_score normalized none
        let hdf := humidity_dispersion_factor env.humidity_pct
        let tf := traffic_factor 0 none
        let prev :=
          match env.previousRaster with
          | some p => if p.length = spec.ny.toNat * spec.nx.toNat then some p else none
          | none => none
        let final := compute_final_score sat hdf env.wtf tf prev env.ema_lambda
        (.ok, ["satellite_score.tif", "final_score.tif", "upes_log.json"], final)

/-! ## tasks/alert_tasks.py — compute_saved_route_upes_scores -/

/-- `compute_saved_route_upes_scores`: `raster` is
`get_latest_upes_raster_path()` (None when no final-score GeoTIFF
exists); `sample` is `compute_upes_along_saved_route` (raster file
sampling, supplied as an input), returning (mean_upes, max_upes) for a
route's (origin_lat, origin_lon, dest_lat, dest_lon).  Returns the
status record and the per-route scores written to history. -/
def compute_saved_route_upes_scores (raster : Option String)
    (routes : List (ℚ × ℚ × ℚ × ℚ)) (sample : ℚ × ℚ × ℚ × ℚ → ℚ × ℚ) :
    TaskStatus × List ℚ :=
  match raster with
  | none => (.skipped "no_raster", [])
  | some _ => (.ok, routes.map (fun r => pyRound (sample r).1 6))

/-! ## services/route_optimization/pathfinding.py

The graph is modelled as a simple directed graph (node id with x = lon,
y = lat; at most the first matching edge record is used per (u, v), as
`G.get_edge_data` returns for a DiGraph). -/

/-- Edge attribute dict, reduced to the keys the pathfinder reads. -/
structure EdgeData where
  length_m : Option ℚ
  length : Option ℚ
  mean_upes : Option ℚ
  time_h : Option ℚ
  weight : Option ℚ
  geometry : Option (List (ℚ × ℚ))
deriving DecidableEq, Repr

/-- Weighted directed graph: nodes carry (id, x, y). -/
structure PGraph where
  nodes : List (ℕ × ℚ × ℚ)
  edges : List (ℕ × ℕ × EdgeData)
deriving Repr

/-- `G.get_edge_data(u, v)`. -/
def get_edge_data (G : PGraph) (u v : ℕ) : Option EdgeData :=
  (G.edges.find? (fun e => e.1 = u ∧ e.2.1 = v)).map (fun e => e.2.2)

/-- Node coordinates `(G.nodes[u]["x"], G.nodes[u]["y"])`. -/
def node_xy (G : PGraph) (u : ℕ) : Option (ℚ × ℚ) :=
  (G.nodes.find? (fun n => n.1 = u)).map (fun n => n.2)

/-- `edge.get("length_m") or edge.get("length") or 0`, in km. -/
def edgeLengthKm (e : EdgeData) : ℚ :=
  pyOrQ e.length_m (pyOrQ e.length 0) / 1000

/-- `edge.get("time_h") or (length_km / 15.0)`. -/
def edgeTimeH (e : EdgeData) : ℚ :=
  pyOrQ e.time_h (edgeLengthKm e / 15)

/-- `edge.get("mean_upes", 0.5)`. -/
def edgeMeanUpes (e : EdgeData) : ℚ :=
  e.mean_upes.getD (1/2)

/-- `edge.get("weight", 0)` (metric aggregation). -/
def edgeCost (e : EdgeData) : ℚ :=
  e.weight.getD 0

/-- Edge weight as networkx `weight="weight"` sees it (missing attribute
counts as 1 in networkx path algorithms). -/
def nxWeight (e : EdgeData) : ℚ :=
  e.weight.getD 1

/-- Consecutive-duplicate removal applied to the coords at the end of
`_route_geometry_and_metrics`. -/
def dedupeConsec : List (ℚ × ℚ) → List (ℚ × ℚ)
  | [] => []
  | c :: cs =>
    let out := cs.foldl (fun out c' => if c' = out.headI ∧ out ≠ [] then out else c' :: out) [c]
    out.reverse

/-- Coordinates contributed by one edge: its geometry when present, else
the endpoint node coordinates that exist. -/
def edgeCoords (G : PGraph) (u v : ℕ) (e : EdgeData) : List (ℚ × ℚ) :=
  match e.geometry with
  | some cs => cs
  | none =>
    (match node_xy G u with | some p => [p] | none => []) ++
    (match node_xy G v with | some p => [p] | none => [])

/-- Metric accumulator of `_route_geometry_and_metrics`. -/
structure RouteMetrics where
  coords : List (ℚ × ℚ)
  exposure : ℚ
  distance_km : ℚ
  time_h : ℚ
  cost : ℚ
deriving DecidableEq, Repr

/-- `_route_geometry_and_metrics(G, path)`: fold over consecutive node
pairs, skipping pairs with no edge data, then dedupe the coords. -/
def route_geometry_and_metrics (G : PGraph) (path : List ℕ) : RouteMetrics :=
  let init : RouteMetrics :=
    { coords := [], exposure := 0, distance_km := 0, time_h := 0, cost := 0 }
  let m := (path.zip path.tail).foldl (fun (m : RouteMetrics) uv =>
    match get_edge_data G uv.1 uv.2 with
    | none => m
    | some e =>
      { coords := m.coords ++ edgeCoords G uv.1 uv.2 e,
        exposure := m.exposure + edgeMeanUpes e * edgeLengthKm e,
        distance_km := m.distance_km + edgeLengthKm e,
        time_h := m.time_h + edgeTimeH e,
        cost := m.cost + edgeCost e }) init
  { m with coords := dedupeConsec m.coords }

/-- `_nearest_node(G, lat, lon)`: `ox.nearest_nodes(G, lon, lat)`
(external osmnx) modelled as the first node minimizing squared
planar distance in (x, y) = (lon, lat); `none` when the graph has no
nodes (the code returns None when the lookup fails). -/
def nearest_node (G : PGraph) (lat lon : ℚ) : Option ℕ :=
  (G.nodes.foldl (fun best n =>
    let d := (n.2.1 - lon) ^ 2 + (n.2.2 - lat) ^ 2
    match best with
    | none => some (n.1, d)
    | some bd => if d < bd.2 then some (n.1, d) else best) none).map (fun bd => bd.1)

/-- All simple paths from `u` to `tgt` avoiding `visited`, by fuel
recursion (fuel bounds path length; `G.nodes.length + 1` suffices). -/
def simplePathsAux (G : PGraph) (tgt : ℕ) : ℕ → List ℕ → ℕ → List (List ℕ)
  | 0, _, _ => []
  | fuel + 1, visited, u =>
    if u = tgt then [[u]]
    else
      let vis' := u :: visited
      (G.edges.filter (fun e => e.1 = u ∧ e.2.1 ∉ vis')).flatMap
        (fun e => (simplePathsAux G tgt fuel vis' e.2.1).map (fun p => u :: p))

/-- All simple paths from `src` to `tgt`. -/
def simple_paths (G : PGraph) (src tgt : ℕ) : List (List ℕ) :=
  simplePathsAux G tgt (G.nodes.length + 1) [] src

/-- Total networkx weight of a path. -/
def pathWeight (G : PGraph) (path : List ℕ) : ℚ :=
  ((path.zip path.tail).map (fun uv =>
    match get_edge_data G uv.1 uv.2 with
    | some e => nxWeight e
    | none => 0)).sum

/-- First element minimizing `f`. -/
def argminBy {α : Type} (f : α → ℚ) (xs : List α) : Option α :=
  xs.foldl (fun best x =>
    match best with
    | none => some x
    | some b => if f x < f b then some x else best) none

/-- `nx.shortest_path(G, src, tgt, weight="weight")` (Dijkstra),
modelled as a minimum-weight simple path (`none` when no path exists,
the `NetworkXNoPath` case). -/
def nx_shortest_path (G : PGraph) (src tgt : ℕ) : Option (List ℕ) :=
  argminBy (pathWeight G) (simple_paths G src tgt)

/-- The route dict built by `shortest_path_optimized` /
`k_shortest_paths` (GeoJSON `geometry.coordinates` kept as the list). -/
structure Route where
  nodes : List ℕ
  coordinates : List (ℚ × ℚ)
  exposure : ℚ
  distance_km : ℚ
  time_min : ℚ
  cost : ℚ
deriving DecidableEq, Repr

/-- Route dict from a node path: metrics rounded as in the code
(`round(exposure, 6)`, `round(distance_km, 4)`,
`round(time_h * 60.0, 2)`, `round(cost, 6)`). -/
def mkRoute (G : PGraph) (path : List ℕ) : Route :=
  let m := route_geometry_and_metrics G path
  { nodes := path,
    coordinates := m.coords,
    exposure := pyRound m.exposure 6,
    distance_km := pyRound m.distance_km 4,
    time_min := pyRound (m.time_h * 60) 2,
    cost := pyRound m.cost 6 }

/-- `shortest_path_optimized(G, origin_lat, origin_lon, dest_lat,
dest_lon)`. -/
def shortest_path_optimized (G : PGraph)
    (origin_lat origin_lon dest_lat dest_lon : ℚ) : Option Route :=
  if G.nodes.length = 0 then none
  else
    match nearest_node G origin_lat origin_lon with
    | none => none
    | some src =>
      match nearest_node G dest_lat dest_lon with
      | none => none
      | some tgt =>
        match nx_shortest_path G src tgt with
        | none => none
        | some p => if p.length < 2 then none else some (mkRoute G p)

/-- `k_shortest_paths(G, ..., k)`: `nx.shortest_simple_paths` yields
simple paths in nondecreasing weight order (modelled by a stable sort of
the simple paths); paths of fewer than 2 nodes are skipped and the first
`k` remaining become routes. -/
def k_shortest_paths (G : PGraph)
    (origin_lat origin_lon dest_lat dest_lon : ℚ) (k : ℕ) : List Route :=
  if G.nodes.length = 0 then []
  else
    match nearest_node G origin_lat origin_lon with
    | none => []
    | some src =>
      match nearest_node G dest_lat dest_lon with
      | none => []
      | some tgt =>
        let sorted := (simple_paths G src tgt).mergeSort
          (fun p q => pathWeight G p ≤ pathWeight G q)
        ((sorted.filter (fun p => 2 ≤ p.length)).take k).map (mkRoute G)

/-! ## api_server.py — haversine_km

The great-circle distance the spec compares routes against; Python
`math` trigonometry is modelled over ℝ. -/

/-- `math.radians`. -/
noncomputable def radians (d : ℝ) : ℝ := d * Real.pi / 180

/-- `math.atan2(y, x)`. -/
noncomputable def atan2 (y x : ℝ) : ℝ :=
  if 0 < x then Real.arctan (y / x)
  else if x < 0 ∧ 0 ≤ y then Real.arctan (y / x) + Real.pi
  else if x < 0 ∧ y < 0 then Real.arctan (y / x) - Real.pi
  else if x = 0 ∧ 0 < y then Real.pi / 2
  else if x = 0 ∧ y < 0 then -(Real.pi / 2)
  else 0

/-- `haversine_km(lat1, lon1, lat2, lon2)` from api_server.py. -/
noncomputable def haversine_km (lat1 lon1 lat2 lon2 : ℝ) : ℝ :=
  let R : ℝ := 6371
  let dlat := radians (lat2 - lat1)
  let dlon := radians (lon2 - lon1)
  let a := Real.sin (dlat / 2) ^ 2 +
    Real.cos (radians lat1) * Real.cos (radians lat2) * Real.sin (dlon / 2) ^ 2
  let c := 2 * atan2 (Real.sqrt a) (Real.sqrt (1 - a))
  R * c

/-! ## Shared helper lemmas -/

/-- Rows produced by one `emitPixel` step: old rows, or a new row whose
fields follow the emitting code. -/
theorem emitPixel_mem {band t gas ts maxC acc i j r}
    (hr : r ∈ emitPixel band t gas ts maxC acc i j) :
    r ∈ acc ∨
      (r.severity_level = (classify_pollution_level (some r.pollution_value) gas).2 ∧
       r.gas_type = gas ∧ r.timestamp = ts) := by
  unfold emitPixel at hr
  split at hr
  · exact Or.inl hr
  · split at hr
    · exact Or.inl hr
    · rcases List.mem_append.mp hr with h | h
      · exact Or.inl h
      · rcases List.mem_singleton.mp h with rfl
        exact Or.inr ⟨rfl, rfl, rfl⟩

/-- Invariant preservation through the inner pixel loop. -/
theorem innerLoop_mem {band t gas ts maxC i r} (js : List ℕ) (acc : List GridRow)
    (hacc : ∀ r' ∈ acc,
      r'.severity_level = (classify_pollution_level (some r'.pollution_value) gas).2 ∧
      r'.gas_type = gas ∧ r'.timestamp = ts)
    (hr : r ∈ js.foldl (fun acc j => emitPixel band t gas ts maxC acc i j) acc) :
    r.severity_level = (classify_pollution_level (some r.pollution_value) gas).2 ∧
    r.gas_type = gas ∧ r.timestamp = ts := by
  induction js generalizing acc with
  | nil => exact hacc r hr
  | cons j js ih =>
    refine ih (emitPixel band t gas ts maxC acc i j) ?_ hr
    intro r' hr'
    rcases emitPixel_mem hr' with h | h
    · exact hacc r' h
    · exact h

/-- Invariant preservation through the outer row loop. -/
theorem outerLoop_mem {band t gas ts maxC r} (is js : List ℕ) (acc : List GridRow)
    (hacc : ∀ r' ∈ acc,
      r'.severity_level = (classify_pollution_level (some r'.pollution_value) gas).2 ∧
      r'.gas_type = gas ∧ r'.timestamp = ts)
    (hr : r ∈ is.foldl
      (fun acc i => js.foldl (fun acc j => emitPixel band t gas ts maxC acc i j) acc) acc) :
    r.severity_level = (classify_pollution_level (some r.pollution_value) gas).2 ∧
    r.gas_type = gas ∧ r.timestamp = ts := by
  induction is generalizing acc with
  | nil => exact hacc r hr
  | cons i is ih =>
    refine ih _ ?_ hr
    intro r' hr'
    exact innerLoop_mem js acc hacc hr'

/-- Every row emitted by `geotiff_to_grid_rows` has the severity computed
by `classify_pollution_level` on its own value and carries the gas and
timestamp it was called with. -/
theorem geotiff_rows_fields {band t gas ts sub maxC r}
    (hr : r ∈ geotiff_to_grid_rows band t gas ts sub maxC) :
    r.severity_level = (classify_pollution_level (some r.pollution_value) gas).2 ∧
    r.gas_type = gas ∧ r.timestamp = ts := by
  simp only [geotiff_to_grid_rows] at hr
  exact outerLoop_mem _ _ [] (by intro r' hr'; exact absurd hr' (List.not_mem_nil r')) hr

/-! ## Claim C1 -/

/-- The NO2 GeoTIFF band of the repo's own
`test_raster_normalizer.test_fill_value_skipped`: one fill pixel `1e20`,
three real pixels `1e15`. -/
def C1_band : List (List (Option ℚ)) :=
  [[some (10 ^ 15), some (10 ^ 20)], [some (10 ^ 15), some (10 ^ 15)]]

/-- `from_bounds(-118, 34, -117, 35, 2, 2)`: pixel size 0.5°. -/
def C1_affine : Affine := ⟨1/2, 0, -118, 0, -1/2, 35⟩

/-- C1: the raster normalizer is claimed (by the spec and by the repo's
test `test_fill_value_skipped`) to skip pixels whose magnitude exceeds
the per-gas fill-value ceiling (1e18 for NO2).  The code only skips NaN:
on the repo's own test raster it emits all 4 pixels, including the
`1e20` fill pixel whose magnitude exceeds `1e18` (the test expects 3
rows). -/
theorem C1_fill_pixel_is_emitted :
    (geotiff_to_grid_rows C1_band C1_affine "NO2" 0 none 5000).map
      (fun r => r.pollution_value) = [10 ^ 15, 10 ^ 20, 10 ^ 15, 10 ^ 15] ∧
    (geotiff_to_grid_rows C1_band C1_affine "NO2" 0 none 5000).length = 4 ∧
    (10 ^ 18 : ℚ) < |(10 ^ 20 : ℚ)| := by
  refine ⟨by decide, by decide, by norm_num⟩

/-! ## Claim C3 -/

/-- C3: every emitted grid cell's severity_level equals the
classification of (pollution_value, gas) by the fixed per-gas
thresholds (severity 0–4, below the lowest threshold giving 0); in
particular NO2 value 2e16 → severity 3, 5e15 → 1, 0.0 → 0. -/
theorem C3_severity_matches_classification :
    (∀ (band : List (List (Option ℚ))) (t : Affine) (gas : String) (ts : ℕ)
        (sub : Option ℕ) (maxC : ℕ) (r : GridRow),
      r ∈ geotiff_to_grid_rows band t gas ts sub maxC →
      r.severity_level = (classify_pollution_level (some r.pollution_value) gas).2) ∧
    classify_pollution_level (some (2 * 10 ^ 16)) "NO2" = ("very_unhealthy", 3) ∧
    classify_pollution_level (some (5 * 10 ^ 15)) "NO2" = ("moderate", 1) ∧
    classify_pollution_level (some 0) "NO2" = ("good", 0) ∧
    (∀ v : ℚ, v < 5 * 10 ^ 15 → (classify_pollution_level (some v) "NO2").2 = 0) ∧
    (∀ v : ℚ, v < 8 * 10 ^ 15 → (classify_pollution_level (some v) "CH2O").2 = 0) ∧
    (∀ v : ℚ, v < 1 → (classify_pollution_level (some v) "AI").2 = 0) ∧
    (∀ v : ℚ, v < 1/5 → (classify_pollution_level (some v) "PM").2 = 0) ∧
    (∀ v : ℚ, v < 220 → (classify_pollution_level (some v) "O3").2 = 0) := by
  refine ⟨?_, ?_, ?_, ?_, ?_, ?_, ?_, ?_, ?_⟩
  · intro band t gas ts sub maxC r hr
    exact (geotiff_rows_fields hr).1
  · show classify_core _ _ = _
    norm_num [classify_core]
  · show classify_core _ _ = _
    norm_num [classify_core]
  · show classify_core _ _ = _
    norm_num [classify_core]
  all_goals
    intro v hv
    show (classify_core _ _).2 = 0
    unfold classify_core
    dsimp only
    split_ifs <;> first | rfl | (exfalso; norm_num at hv ⊢; linarith)

/-- Witness for C3 at concrete inputs: a 1×1 NO2 raster with value 0
emits one row whose severity is the classification of 0 (which is 0). -/
theorem C3_witness :
    (0 : ℚ) < 5 * 10 ^ 15 ∧
    (classify_pollution_level (some 0) "NO2").2 = 0 ∧
    (⟨7, "NO2", (0, -1, 1, 0), 0, 0⟩ : GridRow).severity_level =
      (classify_pollution_level
        (some (⟨7, "NO2", (0, -1, 1, 0), 0, 0⟩ : GridRow).pollution_value) "NO2").2 := by
  refine ⟨by norm_num, C3_severity_matches_classification.2.2.2.2.1 0 (by norm_num), ?_⟩
  refine C3_severity_matches_classification.1
    [[some 0]] ⟨1, 0, 0, 0, -1, 0⟩ "NO2" 7 none 5000 _ ?_
  have hr : List.filter (fun j => decide (j % 1 = 0)) (List.range 1) = [0] := rfl
  norm_num [geotiff_to_grid_rows, chooseStep, emitPixel, pixel_bounds, affine_xy,
    classify_pollution_level, classify_core, POLLUTION_THRESHOLDS, List.lookup,
    hr, List.foldl_cons, List.foldl_nil]

/-! ## Claim C10 -/

/-- A cell key is inside the `(ny, nx)` arrays. -/
def inBounds (g : GridSpec) (ij : ℤ × ℤ) : Prop :=
  0 ≤ ij.1 ∧ ij.1 < g.ny ∧ 0 ≤ ij.2 ∧ ij.2 < g.nx

/-- `cell_index` always clamps into bounds when the grid is nonempty. -/
theorem cell_index_inBounds (g : GridSpec) (lon lat : ℚ)
    (hnx : 1 ≤ g.nx) (hny : 1 ≤ g.ny) :
    inBounds g (g.cell_index lon lat) := by
  unfold GridSpec.cell_index inBounds
  dsimp only
  refine ⟨le_max_left _ _, ?_, le_max_left _ _, ?_⟩ <;>
  · rw [max_lt_iff]
    constructor
    · omega
    · exact lt_of_le_of_lt (min_le_right _ _) (by omega)

/-- `from_bbox` always produces `nx ≥ 1` and `ny ≥ 1`. -/
theorem from_bbox_pos (west south east north res : ℚ) :
    1 ≤ (GridSpec.from_bbox west south east north res).nx ∧
    1 ≤ (GridSpec.from_bbox west south east north res).ny :=
  ⟨le_max_left _ _, le_max_left _ _⟩

/-- Keys present after a `bumpCell` update. -/
theorem bumpCell_keys {cells ij val k}
    (hk : k ∈ (bumpCell cells ij val).map Prod.fst) :
    k ∈ cells.map Prod.fst ∨ k = ij := by
  induction cells with
  | nil =>
    simp only [bumpCell, List.map_cons, List.map_nil, List.mem_singleton] at hk
    exact Or.inr hk
  | cons c rest ih =>
    obtain ⟨kc, ⟨s, cnt⟩⟩ := c
    simp only [bumpCell] at hk
    split at hk
    · simp only [List.map_cons, List.mem_cons] at hk
      rcases hk with rfl | hk
      · exact Or.inl (by simp)
      · exact Or.inl (by simp [hk])
    · simp only [List.map_cons, List.mem_cons] at hk
      rcases hk with rfl | hk
      · exact Or.inl (by simp)
      · rcases ih hk with h | h
        · exact Or.inl (by simp [h])
        · exact Or.inr h

/-- Cell keys present in some gas bucket after a `bumpGas` update. -/
theorem bumpGas_keys {accum gas ij val g cells k}
    (hg : (g, cells) ∈ bumpGas accum gas ij val)
    (hk : k ∈ cells.map Prod.fst) :
    (∃ cells', (g, cells') ∈ accum ∧ k ∈ cells'.map Prod.fst) ∨ k = ij := by
  induction accum with
  | nil =>
    simp only [bumpGas, List.mem_singleton] at hg
    obtain ⟨rfl, rfl⟩ := Prod.mk.injEq .. ▸ (by exact congrArg id hg : (g, cells) = (gas, bumpCell [] ij val))
    rcases bumpCell_keys hk with h | h
    · simp at h
    · exact Or.inr h
  | cons a rest ih =>
    obtain ⟨ga, cellsa⟩ := a
    simp only [bumpGas] at hg
    split at hg
    · rcases List.mem_cons.mp hg with heq | hg
      · obtain ⟨rfl, rfl⟩ := Prod.mk.injEq .. ▸ (by exact congrArg id heq : (g, cells) = (ga, bumpCell cellsa ij val))
        rcases bumpCell_keys hk with h | h
        · exact Or.inl ⟨cellsa, List.mem_cons_self _ _, h⟩
        · exact Or.inr h
      · exact Or.inl ⟨cells, List.mem_cons_of_mem _ hg, hk⟩
    · rcases List.mem_cons.mp hg with heq | hg
      · obtain ⟨rfl, rfl⟩ := Prod.mk.injEq .. ▸ (by exact congrArg id heq : (g, cells) = (ga, cellsa))
        exact Or.inl ⟨cells, List.mem_cons_self _ _, hk⟩
      · rcases ih hg with ⟨cells', hmem, hk'⟩ | h
        · exact Or.inl ⟨cells', List.mem_cons_of_mem _ hmem, hk'⟩
        · exact Or.inr h

/-- Every cell key in the accumulation fold satisfies any predicate that
holds of the starting keys and of `cell_index` at every input row. -/
theorem aggFold_keys (spec : GridSpec) (P : ℤ × ℤ → Prop) (rows : List AggRow)
    (accum : List (String × List ((ℤ × ℤ) × (ℚ × ℕ))))
    (hacc : ∀ g cells, (g, cells) ∈ accum → ∀ k ∈ cells.map Prod.fst, P k)
    (hrows : ∀ r ∈ rows, P (spec.cell_index r.lon r.lat)) :
    ∀ g cells,
      (g, cells) ∈ rows.foldl
        (fun accum r => bumpGas accum r.gas (spec.cell_index r.lon r.lat) r.val) accum →
      ∀ k ∈ cells.map Prod.fst, P k := by
  induction rows generalizing accum with
  | nil => exact hacc
  | cons row rest ih =>
    refine ih _ ?_ (fun r hr => hrows r (List.mem_cons_of_mem _ hr))
    intro g cells hg k hk
    rcases bumpGas_keys hg hk with ⟨cells', hmem, hk'⟩ | rfl
    · exact hacc g cells' hmem k hk'
    · exact hrows row (List.mem_cons_self _ _)

/-- Every cell key accumulated by `aggAccum` is a `cell_index` of some
input point, hence satisfies in-bounds predicates. -/
theorem aggAccum_keys (spec : GridSpec) (P : ℤ × ℤ → Prop) (rows : List AggRow)
    (hrows : ∀ r ∈ rows, P (spec.cell_index r.lon r.lat)) :
    ∀ g cells, (g, cells) ∈ aggAccum spec rows →
    ∀ k ∈ cells.map Prod.fst, P k := by
  unfold aggAccum
  exact aggFold_keys spec P rows []
    (fun g cells h => absurd h (List.not_mem_nil _)) hrows

/-- C10: for every GridSpec with `nx ≥ 1` and `ny ≥ 1` and every point,
`cell_index` returns (i, j) with `0 ≤ i < ny` and `0 ≤ j < nx`; and every
cell key the aggregation writes (`arr[i, j] = s / c`) is in bounds, so
the aggregation never writes outside the (ny, nx) arrays. -/
theorem C10_cell_index_bounds :
    (∀ (g : GridSpec) (lon lat : ℚ), 1 ≤ g.nx → 1 ≤ g.ny →
      inBounds g (g.cell_index lon lat)) ∧
    (∀ (rows : List AggRow) (west south east north res : ℚ) (gas : String)
        (cells : List ((ℤ × ℤ) × (ℚ × ℕ))) (k : ℤ × ℤ),
      (gas, cells) ∈ aggAccum (GridSpec.from_bbox west south east north res) rows →
      k ∈ cells.map Prod.fst →
      inBounds (GridSpec.from_bbox west south east north res) k) := by
  constructor
  · intro g lon lat hnx hny
    exact cell_index_inBounds g lon lat hnx hny
  · intro rows west south east north res gas cells k hmem hk
    refine aggAccum_keys _ _ rows ?_ gas cells hmem k hk
    intro r _
    exact cell_index_inBounds _ r.lon r.lat
      (from_bbox_pos west south east north res).1
      (from_bbox_pos west south east north res).2

/-- Witness for C10 at a concrete grid and point outside the bbox. -/
theorem C10_witness :
    (1 : ℤ) ≤ (GridSpec.from_bbox (-125) 24 (-66) 50 (1/20)).nx ∧
    (1 : ℤ) ≤ (GridSpec.from_bbox (-125) 24 (-66) 50 (1/20)).ny ∧
    inBounds (GridSpec.from_bbox (-125) 24 (-66) 50 (1/20))
      ((GridSpec.from_bbox (-125) 24 (-66) 50 (1/20)).cell_index (-200) 100) :=
  ⟨(from_bbox_pos (-125) 24 (-66) 50 (1/20)).1,
   (from_bbox_pos (-125) 24 (-66) 50 (1/20)).2,
   C10_cell_index_bounds.1 _ (-200) 100
     (from_bbox_pos (-125) 24 (-66) 50 (1/20)).1
     (from_bbox_pos (-125) 24 (-66) 50 (1/20)).2⟩

/-! ## Claim C7 -/

/-- C7: the route-deterioration detector fires iff the previous score is
strictly positive and `(curr − prev)/prev ≥ base · scale` (base default
0.15; scale 1.0 for levels 1–2 or unknown/absent, 0.7 for 3–4, 0.5 for
5); a fired alert records that effective threshold and the delta
percentage and satisfies
`(score_after − score_before)/score_before ≥ threshold`. -/
theorem C7_route_deterioration :
    (∀ (curr : ℚ) (level : Option ℤ) (base : Option ℚ),
      check_route_deterioration none curr level base = none) ∧
    (∀ (prev curr : ℚ) (level : Option ℤ) (base : Option ℚ),
      (check_route_deterioration (some prev) curr level base).isSome ↔
        (0 < prev ∧ base.getD (3/20) * get_sensitivity_scale level ≤ (curr - prev) / prev)) ∧
    (∀ (prev curr : ℚ) (level : Option ℤ) (base : Option ℚ) (a : DeteriorationAlert),
      check_route_deterioration (some prev) curr level base = some a →
      a.score_before = prev ∧ a.score_after = curr ∧
      a.threshold = base.getD (3/20) * get_sensitivity_scale level ∧
      a.delta_pct = pyRound ((curr - prev) / prev) 4 ∧
      a.threshold ≤ (a.score_after - a.score_before) / a.score_before) ∧
    (get_sensitivity_scale none = 1 ∧
     get_sensitivity_scale (some 1) = 1 ∧
     get_sensitivity_scale (some 2) = 1 ∧
     get_sensitivity_scale (some 3) = 7/10 ∧
     get_sensitivity_scale (some 4) = 7/10 ∧
     get_sensitivity_scale (some 5) = 1/2 ∧
     (∀ l : ℤ, l ∉ ([1, 2, 3, 4, 5] : List ℤ) → get_sensitivity_scale (some l) = 1)) := by
  refine ⟨fun _ _ _ => rfl, ?_, ?_, rfl, rfl, rfl, rfl, rfl, rfl, ?_⟩
  · intro prev curr level base
    unfold check_route_deterioration
    dsimp only
    split_ifs with h1 h2
    · simp only [Option.isSome_none, Bool.false_eq_true, false_iff, not_and]
      intro h0 _
      exact absurd h0 (not_lt.mpr h1)
    · simp only [Option.isSome_some, true_iff]
      exact ⟨not_le.mp h1, h2⟩
    · simp only [Option.isSome_none, Bool.false_eq_true, false_iff, not_and]
      intro _ hc
      exact h2 hc
  · intro prev curr level base a h
    unfold check_route_deterioration at h
    dsimp only at h
    by_cases h1 : prev ≤ 0
    · rw [if_pos h1] at h
      exact absurd h (by simp)
    · rw [if_neg h1] at h
      by_cases h2 : base.getD (3/20) * get_sensitivity_scale level ≤ (curr - prev) / prev
      · rw [if_pos h2] at h
        injection h with h
        subst h
        exact ⟨rfl, rfl, rfl, rfl, h2⟩
      · rw [if_neg h2] at h
        exact absurd h (by simp)
  · intro l hl
    simp only [List.mem_cons, List.not_mem_nil, or_false, not_or] at hl
    obtain ⟨h1, h2, h3, h4, h5⟩ := hl
    have e1 : (l == (1 : ℤ)) = false := beq_eq_false_iff_ne.mpr h1
    have e2 : (l == (2 : ℤ)) = false := beq_eq_false_iff_ne.mpr h2
    have e3 : (l == (3 : ℤ)) = false := beq_eq_false_iff_ne.mpr h3
    have e4 : (l == (4 : ℤ)) = false := beq_eq_false_iff_ne.mpr h4
    have e5 : (l == (5 : ℤ)) = false := beq_eq_false_iff_ne.mpr h5
    simp only [get_sensitivity_scale, SENSITIVITY_SCALE, List.lookup, e1, e2, e3, e4, e5,
      Option.getD_none]

/-- Witness for C7: previous score 1, current 1.2, sensitivity level 3
(scale 0.7, threshold 0.105 ≤ delta 0.2) fires; level 6 is unknown. -/
theorem C7_witness :
    (check_route_deterioration (some 1) (6/5) (some 3) none).isSome ∧
    get_sensitivity_scale (some 6) = 1 :=
  ⟨(C7_route_deterioration.2.1 1 (6/5) (some 3) none).mpr
      ⟨by norm_num,
       by show (3:ℚ)/20 * (7/10) ≤ (6/5 - 1) / 1; norm_num⟩,
   C7_route_deterioration.2.2.2.2.2.2.2.2.2 6 (by decide)⟩

/-! ## Claim C4 -/

/-- A response whose status is outside `{429, 500, 502, 503}` is
returned by the retry helper on the very first attempt, with no delay
performed. -/
theorem retry_returns_first (resps : ℕ → Option HResponse) (r : HResponse)
    (h0 : resps 0 = some r) (hm : r.status ∉ RETRYABLE_STATUSES) :
    request_with_retry resps 3 = .returned r 0 [] := by
  simp only [request_with_retry, retryGo, h0]
  rw [if_neg hm]

/-- The HTTP 504 response used as the counterexample input. -/
def resp504 : HResponse := ⟨504, none, false, none, none⟩

/-- C4 counterexample: the claim says every 5xx status is retried, but
the code retries only `{429, 500, 502, 503}`: a 504 response (a 5xx) is
returned on attempt 0 with no backoff sleeps, and `submit_request` then
raises for it, aborting the gas without any retry. -/
theorem C4_counterexample_504_not_retried :
    request_with_retry (fun _ => some resp504) 3 =
      .returned resp504 0 [] ∧
    500 ≤ resp504.status ∧ resp504.status < 600 ∧
    resp504.status ∉ RETRYABLE_STATUSES ∧
    submit_request (fun _ => some resp504) = .raisedStatus 504 := by
  refine ⟨?_, by decide, by decide, by decide, ?_⟩ <;> rfl

/-- C4 (amended): a response with status in `{429, 500, 502, 503}` is
retried with exponential backoff (delay `10 · 2^attempt` seconds, at
most 3 attempts, then the last response's `raise_for_status` raises);
any other status — including other 5xx statuses such as 504 — is
returned from the first attempt without retry; and a 4xx status other
than 429 is never retried and makes `submit_request` raise, aborting
processing for that gas. -/
theorem C4_retry_only_on_429_500_502_503 :
    (∀ (resps : ℕ → Option HResponse),
      (∀ i < 3, ∃ r, resps i = some r ∧ r.status ∈ RETRYABLE_STATUSES) →
      request_with_retry resps 3 = .raised 2 [10, 20]) ∧
    (∀ (resps : ℕ → Option HResponse) (r : HResponse),
      resps 0 = some r → r.status ∉ RETRYABLE_STATUSES →
      request_with_retry resps 3 = .returned r 0 []) ∧
    (∀ (resps : ℕ → Option HResponse) (r : HResponse),
      resps 0 = some r → 400 ≤ r.status → r.status < 500 → r.status ≠ 429 →
      submit_request resps = .raisedStatus r.status) := by
  refine ⟨?_, retry_returns_first, ?_⟩
  · intro resps h
    obtain ⟨r0, h0, m0⟩ := h 0 (by norm_num)
    obtain ⟨r1, h1, m1⟩ := h 1 (by norm_num)
    obtain ⟨r2, h2, m2⟩ := h 2 (by norm_num)
    simp only [request_with_retry, retryGo, h0, h1, h2, if_pos m0, if_pos m1, if_pos m2]
    norm_num
  · intro resps r h0 h400 h500 h429
    have hnr : r.status ∉ RETRYABLE_STATUSES := by
      simp only [RETRYABLE_STATUSES, List.mem_cons, List.not_mem_nil, or_false, not_or]
      omega
    have hret := retry_returns_first resps r h0 hnr
    unfold submit_request
    rw [hret]
    dsimp only
    have c1 : ¬(r.status ∈ [302, 303, 307] ∧ r.location.isSome) := by
      rintro ⟨hmem, _⟩
      simp only [List.mem_cons, List.not_mem_nil, or_false] at hmem
      omega
    have c2 : r.status ≠ 200 := by omega
    have c3 : 400 ≤ r.status ∧ r.status < 600 := ⟨h400, by omega⟩
    rw [if_neg c1, if_neg c2, if_pos c3]

/-- Witness for C4 (amended) at concrete responses: always-503 leads to
3 attempts with sleeps [10, 20] then a raise; a single 404 aborts
without retry. -/
theorem C4_witness :
    request_with_retry (fun _ => some ⟨503, none, false, none, none⟩) 3 =
      .raised 2 [10, 20] ∧
    submit_request (fun _ => some ⟨404, none, false, none, none⟩) =
      .raisedStatus 404 :=
  ⟨C4_retry_only_on_429_500_502_503.1 (fun _ => some ⟨503, none, false, none, none⟩)
      (fun i _ => ⟨⟨503, none, false, none, none⟩, rfl, by decide⟩),
   C4_retry_only_on_429_500_502_503.2.2 (fun _ => some ⟨404, none, false, none, none⟩)
      ⟨404, none, false, none, none⟩ rfl (by decide) (by decide) (by decide)⟩

/-! ## Claim C8 -/

/-- Folding `acc + f x` equals the initial value plus the mapped sum. -/
theorem foldl_add_sum {α : Type} (f : α → ℕ) (l : List α) (n : ℕ) :
    l.foldl (fun a x => a + f x) n = n + (l.map f).sum := by
  induction l generalizing n with
  | nil => simp
  | cons x xs ih => simp [ih, Nat.add_assoc]

/-- C8: every gas outcome of the run is reported (a failing gas is
skipped, later gases still run and their inserts count), and the Redis
marker (TTL 3600 s) and the two chained tasks fire iff at least one cell
was inserted; removing a failed gas from the run leaves the insert count
unchanged. -/
theorem C8_failed_gas_skipped_chain_iff_inserted :
    ∀ (outcomes : List (String × GasOutcome)),
      (fetch_tempo_hourly outcomes true).gases = outcomes.map Prod.fst ∧
      (fetch_tempo_hourly outcomes true).inserted =
        (outcomes.map (fun go => insertedOf go.2)).sum ∧
      ((fetch_tempo_hourly outcomes true).markerSet = true ↔
        0 < (fetch_tempo_hourly outcomes true).inserted) ∧
      (fetch_tempo_hourly outcomes true).markerTTL = 3600 ∧
      ((fetch_tempo_hourly outcomes true).upesChained = true ↔
        0 < (fetch_tempo_hourly outcomes true).inserted) ∧
      ((fetch_tempo_hourly outcomes true).recomputeChained = true ↔
        0 < (fetch_tempo_hourly outcomes true).inserted) ∧
      (∀ (pre post : List (String × GasOutcome)) (g : String),
        outcomes = pre ++ [(g, .failed [])] ++ post →
        (fetch_tempo_hourly outcomes true).inserted =
          (fetch_tempo_hourly (pre ++ post) true).inserted) := by
  intro outcomes
  have hins : ∀ (l : List (String × GasOutcome)),
      (fetch_tempo_hourly l true).inserted = (l.map (fun go => insertedOf go.2)).sum := by
    intro l
    show l.foldl (fun acc go => acc + insertedOf go.2) 0 = _
    rw [foldl_add_sum (fun go => insertedOf go.2) l 0]
    omega
  refine ⟨rfl, hins outcomes, ?_, rfl, ?_, ?_, ?_⟩
  · show (decide (0 < _) && true) = true ↔ _
    simp only [Bool.and_true, decide_eq_true_eq]
    exact Iff.rfl
  · show decide (0 < _) = true ↔ _
    simp only [decide_eq_true_eq]
    exact Iff.rfl
  · show decide (0 < _) = true ↔ _
    simp only [decide_eq_true_eq]
    exact Iff.rfl
  · intro pre post g h
    subst h
    rw [hins, hins]
    simp [insertedOf]

/-- Witness for C8: a run where CH2O fails but NO2 inserted 3 + 2 rows
still sets the marker and fires the chain, and dropping the failed gas
leaves the count at 5. -/
theorem C8_witness :
    (fetch_tempo_hourly [("NO2", .ok [3, 2]), ("CH2O", .failed []), ("O3", .noData)] true).gases
      = ["NO2", "CH2O", "O3"] ∧
    (fetch_tempo_hourly [("NO2", .ok [3, 2]), ("CH2O", .failed []), ("O3", .noData)] true).inserted
      = (([("NO2", GasOutcome.ok [3, 2]), ("CH2O", .failed []), ("O3", .noData)]).map
          (fun go => insertedOf go.2)).sum ∧
    (fetch_tempo_hourly [("NO2", .ok [3, 2]), ("CH2O", .failed []), ("O3", .noData)] true).inserted
      = (fetch_tempo_hourly [("NO2", .ok [3, 2]), ("O3", .noData)] true).inserted := by
  refine ⟨(C8_failed_gas_skipped_chain_iff_inserted _).1,
          (C8_failed_gas_skipped_chain_iff_inserted _).2.1,
          (C8_failed_gas_skipped_chain_iff_inserted _).2.2.2.2.2.2
            [("NO2", .ok [3, 2])] [("O3", .noData)] "CH2O" rfl⟩

/-! ## Claim C9 -/

/-- C9: with no pollution cells in the window/bbox the UPES compute task
returns a skipped status record and writes no raster or log files, and
the saved-route scoring task with no UPES raster available returns
`{status: skipped, reason: no_raster}`. -/
theorem C9_skipped_without_prerequisites :
    (∀ env : UpesEnv, env.rows = [] →
      (∃ reason, (compute_upes_hourly env).1 = .skipped reason) ∧
      (compute_upes_hourly env).2.1 = []) ∧
    (∀ (routes : List (ℚ × ℚ × ℚ × ℚ)) (sample : ℚ × ℚ × ℚ × ℚ → ℚ × ℚ),
      compute_saved_route_upes_scores none routes sample = (.skipped "no_raster", [])) := by
  refine ⟨?_, fun _ _ => rfl⟩
  intro env h
  unfold compute_upes_hourly
  split
  · exact ⟨⟨"disabled", rfl⟩, rfl⟩
  · split
    · exact ⟨⟨"no_data", rfl⟩, rfl⟩
    · rw [h]
      simp only [aggregate_pollution_grid_to_regular, aggAccum, List.foldl_nil,
        List.map_nil, List.isEmpty_nil, if_true]
      exact ⟨⟨"no_gas_data", rfl⟩, trivial⟩

/-- Witness for C9: a concrete enabled environment whose grid query is
empty is skipped with no files written; saved-route scoring without a
raster is skipped. -/
theorem C9_witness :
    (∃ reason,
      (compute_upes_hourly
        ⟨true, some 5, [], -125, 24, -66, 50, 1/20, 50, 1, none, some (3/5)⟩).1 =
        .skipped reason) ∧
    (compute_upes_hourly
        ⟨true, some 5, [], -125, 24, -66, 50, 1/20, 50, 1, none, some (3/5)⟩).2.1 = [] ∧
    compute_saved_route_upes_scores none [] (fun _ => (0, 0)) = (.skipped "no_raster", []) :=
  ⟨(C9_skipped_without_prerequisites.1
      ⟨true, some 5, [], -125, 24, -66, 50, 1/20, 50, 1, none, some (3/5)⟩ rfl).1,
   (C9_skipped_without_prerequisites.1
      ⟨true, some 5, [], -125, 24, -66, 50, 1/20, 50, 1, none, some (3/5)⟩ rfl).2,
   C9_skipped_without_prerequisites.2 [] (fun _ => (0, 0))⟩

/-! ## Claim C5 -/

/-- The effective weight of a gas under the default table:
`weights.get(gas, 0.0)`. -/
def gasWeight (g : String) : ℚ := (UPES_DEFAULT_WEIGHTS.lookup g).getD 0

/-- Pointwise value of an elementwise sum. -/
theorem getD_zipWith_add (a b : List ℚ) (k : ℕ) (ha : k < a.length) (hb : k < b.length) :
    (List.zipWith (fun x y => x + y) a b).getD k 0 = a.getD k 0 + b.getD k 0 := by
  induction a generalizing b k with
  | nil => simp at ha
  | cons x xs ih =>
    cases b with
    | nil => simp at hb
    | cons y ys =>
      cases k with
      | zero => simp
      | succ k =>
        simp only [List.zipWith_cons_cons, List.getD_cons_succ]
        exact ih ys k (by simpa using ha) (by simpa using hb)

/-- Pointwise value of an elementwise scaling. -/
theorem getD_map_mul (w : ℚ) (l : List ℚ) (k : ℕ) (hk : k < l.length) :
    (l.map (fun v => w * v)).getD k 0 = w * l.getD k 0 := by
  induction l generalizing k with
  | nil => simp at hk
  | cons x xs ih =>
    cases k with
    | zero => simp
    | succ k =>
      simp only [List.map_cons, List.getD_cons_succ]
      exact ih k (by simpa using hk)

/-- `scaleArr` on an all-defined array is a pure elementwise scaling. -/
theorem scaleArr_map_some (w : ℚ) (l : List ℚ) :
    scaleArr w (l.map some) = (l.map (fun v => w * v)).map some := by
  simp [scaleArr, List.map_map]

/-- `addArr` on all-defined arrays is a pure elementwise sum. -/
theorem addArr_map_some (a b : List ℚ) :
    addArr (a.map some) (b.map some) =
      (List.zipWith (fun x y => x + y) a b).map some := by
  induction a generalizing b with
  | nil => cases b <;> simp [addArr]
  | cons x xs ih =>
    cases b with
    | nil => simp [addArr]
    | cons y ys => simpa [addArr] using ih ys

/-- Indexing into an all-defined array. -/
theorem getD_map_some (l : List ℚ) (k : ℕ) (hk : k < l.length) :
    (l.map some).getD k none = some (l.getD k 0) := by
  induction l generalizing k with
  | nil => simp at hk
  | cons x xs ih =>
    cases k with
    | zero => simp
    | succ k =>
      simp only [List.map_cons, List.getD_cons_succ]
      exact ih k (by simpa using hk)

/-- The satellite-score fold on all-defined, equal-length arrays with
positively weighted gases, started from a defined accumulator, computes
the elementwise weighted sum. -/
theorem sat_fold (gases : List (String × List ℚ)) (o : List ℚ) (n : ℕ)
    (ho : o.length = n)
    (hlen : ∀ gc ∈ gases, gc.2.length = n)
    (hpos : ∀ gc ∈ gases, 0 < gasWeight gc.1) :
    ∃ res : List ℚ,
      (gases.map (fun gc => (gc.1, gc.2.map some))).foldl
        (fun out gc =>
          let w := (UPES_DEFAULT_WEIGHTS.lookup gc.1).getD 0
          if w ≤ 0 then out
          else
            match out with
            | none => some (scaleArr w gc.2)
            | some o => some (addArr o (scaleArr w gc.2)))
        (some (o.map some)) = some (res.map some) ∧
      res.length = n ∧
      ∀ k, k < n →
        res.getD k 0 =
          o.getD k 0 + (gases.map (fun gc => gasWeight gc.1 * gc.2.getD k 0)).sum := by
  induction gases generalizing o with
  | nil => exact ⟨o, rfl, ho, fun k _ => by simp⟩
  | cons gc rest ih =>
    have hw : ¬((UPES_DEFAULT_WEIGHTS.lookup gc.1).getD 0 ≤ 0) :=
      not_le.mpr (hpos gc (List.mem_cons_self _ _))
    simp only [List.map_cons, List.foldl_cons]
    rw [if_neg hw]
    rw [scaleArr_map_some, addArr_map_some]
    have hgclen : gc.2.length = n := hlen gc (List.mem_cons_self _ _)
    obtain ⟨res, heq, hreslen, hval⟩ := ih
      (List.zipWith (fun x y => x + y) o
        (gc.2.map (fun v => (UPES_DEFAULT_WEIGHTS.lookup gc.1).getD 0 * v)))
      (by simp [ho, hgclen])
      (fun g hg => hlen g (List.mem_cons_of_mem _ hg))
      (fun g hg => hpos g (List.mem_cons_of_mem _ hg))
    refine ⟨res, heq, hreslen, ?_⟩
    intro k hk
    rw [hval k hk, getD_zipWith_add o _ k (by omega) (by simp; omega),
      getD_map_mul _ gc.2 k (by omega)]
    simp only [List.map_cons, List.sum_cons]
    unfold gasWeight
    ring

/-- C5: the satellite score is `S = Σ_g w_g · norm_g` over the gases
present (default weights NO2 0.30, PM 0.35, O3 0.20, CH2O 0.10, AI
0.05); a gas missing from the weight table contributes nothing and its
weight is not redistributed; the worked example evaluates to 0.50. -/
theorem C5_satellite_score_weighted_sum :
    (∀ (gases : List (String × List ℚ)) (n : ℕ),
      gases ≠ [] →
      (∀ gc ∈ gases, gc.2.length = n) →
      (∀ gc ∈ gases, 0 < gasWeight gc.1) →
      ∀ k, k < n →
        (compute_satellite_score (gases.map (fun gc => (gc.1, gc.2.map some))) none).getD k none =
          some ((gases.map (fun gc => gasWeight gc.1 * gc.2.getD k 0)).sum)) ∧
    (gasWeight "NO2" = 3/10 ∧ gasWeight "PM" = 7/20 ∧ gasWeight "O3" = 1/5 ∧
     gasWeight "CH2O" = 1/10 ∧ gasWeight "AI" = 1/20) ∧
    (∀ g : String, UPES_DEFAULT_WEIGHTS.lookup g = none → gasWeight g = 0) ∧
    (∀ (gs₁ gs₂ : List (String × List (Option ℚ))) (g : String) (arr : List (Option ℚ)),
      UPES_DEFAULT_WEIGHTS.lookup g = none →
      compute_satellite_score (gs₁ ++ (g, arr) :: gs₂) none =
        compute_satellite_score (gs₁ ++ gs₂) none) ∧
    compute_satellite_score
      [("NO2", [some 1]), ("PM", [some 0]), ("O3", [some (1/2)]),
       ("CH2O", [some 1]), ("AI", [some 0])] none = [some (1/2)] := by
  refine ⟨?_, ⟨rfl, rfl, rfl, rfl, rfl⟩, ?_, ?_, ?_⟩
  · intro gases n hne hlen hpos k hk
    obtain ⟨gc, rest, rfl⟩ : ∃ gc rest, gases = gc :: rest := by
      cases gases with
      | nil => exact absurd rfl hne
      | cons gc rest => exact ⟨gc, rest, rfl⟩
    simp only [compute_satellite_score, List.map_cons, List.foldl_cons, Option.getD_none]
    have hw : ¬((UPES_DEFAULT_WEIGHTS.lookup gc.1).getD 0 ≤ 0) :=
      not_le.mpr (hpos gc (List.mem_cons_self _ _))
    rw [if_neg hw, scaleArr_map_some]
    obtain ⟨res, heq, hreslen, hval⟩ := sat_fold rest
      (gc.2.map (fun v => (UPES_DEFAULT_WEIGHTS.lookup gc.1).getD 0 * v)) n
      (by simp [hlen gc (List.mem_cons_self _ _)])
      (fun g hg => hlen g (List.mem_cons_of_mem _ hg))
      (fun g hg => hpos g (List.mem_cons_of_mem _ hg))
    rw [heq, Option.getD_some, getD_map_some res k (by omega), hval k hk,
      getD_map_mul _ gc.2 k (by rw [hlen gc (List.mem_cons_self _ _)]; omega)]
    simp only [List.map_cons, List.sum_cons, List.getD_nil]
    unfold gasWeight
    ring
  · intro g h
    unfold gasWeight
    rw [h]
    rfl
  · intro gs₁ gs₂ g arr h
    simp only [compute_satellite_score, List.foldl_append, List.foldl_cons, h,
      Option.getD_none]
    rw [if_pos le_rfl]
  · norm_num [compute_satellite_score, List.foldl_cons, List.foldl_nil, scaleArr, addArr,
      (show UPES_DEFAULT_WEIGHTS.lookup "NO2" = some (3/10) from rfl),
      (show UPES_DEFAULT_WEIGHTS.lookup "PM" = some (7/20) from rfl),
      (show UPES_DEFAULT_WEIGHTS.lookup "O3" = some (1/5) from rfl),
      (show UPES_DEFAULT_WEIGHTS.lookup "CH2O" = some (1/10) from rfl),
      (show UPES_DEFAULT_WEIGHTS.lookup "AI" = some (1/20) from rfl)]

/-- Witness for C5: the five default gases with single-cell arrays
(1, 0, 0.5, 1, 0) give the weighted sum at cell 0. -/
theorem C5_witness :
    (compute_satellite_score
      [("NO2", [some 1]), ("PM", [some 0]), ("O3", [some (1/2)]),
       ("CH2O", [some 1]), ("AI", [some 0])] none).getD 0 none =
      some (([(("NO2" : String), [(1 : ℚ)]), ("PM", [0]), ("O3", [1/2]),
              ("CH2O", [1]), ("AI", [0])].map
        (fun gc => gasWeight gc.1 * gc.2.getD 0 0)).sum) := by
  have h := C5_satellite_score_weighted_sum.1
    [("NO2", [1]), ("PM", [0]), ("O3", [(1/2 : ℚ)]), ("CH2O", [1]), ("AI", [0])] 1
    (by simp)
    (by intro gc hgc
        simp only [List.mem_cons, List.not_mem_nil, or_false] at hgc
        rcases hgc with rfl | rfl | rfl | rfl | rfl <;> rfl)
    (by intro gc hgc
        simp only [List.mem_cons, List.not_mem_nil, or_false] at hgc
        rcases hgc with rfl | rfl | rfl | rfl | rfl <;>
          first
          | exact (by norm_num : (0:ℚ) < 3/10)
          | exact (by norm_num : (0:ℚ) < 7/20)
          | exact (by norm_num : (0:ℚ) < 1/5)
          | exact (by norm_num : (0:ℚ) < 1/10)
          | exact (by norm_num : (0:ℚ) < 1/20))
    0 (by norm_num)
  simpa using h

/-! ## Claim C6 -/

/-- The EMA zip on all-defined arrays is the pure pointwise EMA. -/
theorem ema_zip_map_some (lam : ℚ) (cur prev : List ℚ) :
    List.zipWith (fun c p =>
      match c, p with
      | some cv, some pv => some (lam * cv + (1 - lam) * pv)
      | _, _ => none) (cur.map some) (prev.map some) =
    (List.zipWith (fun c p => lam * c + (1 - lam) * p) cur prev).map some := by
  induction cur generalizing prev with
  | nil => cases prev <;> simp
  | cons c cs ih =>
    cases prev with
    | nil => simp
    | cons p ps => simpa using ih ps

/-- C6: with a previous final-score array of identical shape and λ
configured in (0, 1], the final score is
`λ·current + (1 − λ)·previous` (pointwise); when the previous array is
absent or its shape differs, or λ is not configured (or is outside
(0, 1]), the current score is returned unchanged; EMA of [1, 0] and
[0, 1] at λ = 0.5 is [0.5, 0.5]. -/
theorem C6_ema_smoothing :
    (∀ (cur : List (Option ℚ)) (lam : ℚ), apply_ema cur none lam = cur) ∧
    (∀ (cur prev : List (Option ℚ)) (lam : ℚ), prev.length ≠ cur.length →
      apply_ema cur (some prev) lam = cur) ∧
    (∀ (cur prev : List ℚ) (lam : ℚ), prev.length = cur.length →
      apply_ema (cur.map some) (some (prev.map some)) lam =
        (List.zipWith (fun c p => lam * c + (1 - lam) * p) cur prev).map some) ∧
    (∀ (sat : List (Option ℚ)) (hdf wtf tf : ℚ) (prev : Option (List (Option ℚ))),
      compute_final_score sat hdf wtf tf prev none =
        sat.map (fun c => c.map (fun v => v * hdf * wtf * tf))) ∧
    (∀ (sat : List (Option ℚ)) (hdf wtf tf lam : ℚ) (prev : Option (List (Option ℚ))),
      0 < lam → lam ≤ 1 →
      compute_final_score sat hdf wtf tf prev (some lam) =
        apply_ema (sat.map (fun c => c.map (fun v => v * hdf * wtf * tf))) prev lam) ∧
    (∀ (sat : List (Option ℚ)) (hdf wtf tf lam : ℚ) (prev : Option (List (Option ℚ))),
      lam ≤ 0 ∨ 1 < lam →
      compute_final_score sat hdf wtf tf prev (some lam) =
        sat.map (fun c => c.map (fun v => v * hdf * wtf * tf))) ∧
    apply_ema [some 1, some 0] (some [some 0, some 1]) (1/2) =
      [some (1/2), some (1/2)] := by
  refine ⟨fun _ _ => rfl, ?_, ?_, fun _ _ _ _ _ => rfl, ?_, ?_, ?_⟩
  · intro cur prev lam h
    simp only [apply_ema]
    rw [if_pos h]
  · intro cur prev lam h
    simp only [apply_ema]
    rw [if_neg (by simp [h]), ema_zip_map_some]
  · intro sat hdf wtf tf lam prev h1 h2
    simp only [compute_final_score]
    rw [if_pos ⟨h1, h2⟩]
  · intro sat hdf wtf tf lam prev h
    simp only [compute_final_score]
    rw [if_neg ?_]
    rintro ⟨hl, hr⟩
    rcases h with h | h
    · exact absurd hl (not_lt.mpr h)
    · exact absurd hr (not_le.mpr h)
  · norm_num [apply_ema, List.zipWith]

/-- Witness for C6 at concrete inputs. -/
theorem C6_witness :
    apply_ema [some 1] (some []) (1/2) = [some 1] ∧
    compute_final_score [some 1] 1 1 1 (some [some 0]) (some (1/2)) =
      apply_ema ([some 1].map (fun c => c.map (fun v => v * 1 * 1 * 1)))
        (some [some 0]) (1/2) ∧
    apply_ema ([(1 : ℚ), 0].map some) (some ([(0 : ℚ), 1].map some)) (1/2) =
      (List.zipWith (fun c p => (1/2) * c + (1 - 1/2) * p) [(1 : ℚ), 0] [(0 : ℚ), 1]).map some :=
  ⟨C6_ema_smoothing.2.1 [some 1] [] (1/2) (by decide),
   C6_ema_smoothing.2.2.2.2.1 [some 1] 1 1 1 (1/2) (some [some 0])
     (by norm_num) (by norm_num),
   C6_ema_smoothing.2.2.1 [(1 : ℚ), 0] [(0 : ℚ), 1] (1/2) rfl⟩

/-! ## Claim C2 -/

/-- Spec-side formula: `exposure = Σ over path edges of
mean_upes · length_km` (skipped pairs contribute 0, as the code skips
them). -/
def spec_exposure_sum (G : PGraph) (path : List ℕ) : ℚ :=
  ((path.zip path.tail).map (fun uv =>
    match get_edge_data G uv.1 uv.2 with
    | some e => edgeMeanUpes e * edgeLengthKm e
    | none => 0)).sum

/-- Spec-side formula: `distance_km = Σ length_km`. -/
def spec_distance_sum (G : PGraph) (path : List ℕ) : ℚ :=
  ((path.zip path.tail).map (fun uv =>
    match get_edge_data G uv.1 uv.2 with
    | some e => edgeLengthKm e
    | none => 0)).sum

/-- Spec-side formula: `Σ time_h` (so `time_min = 60 · Σ time_h`). -/
def spec_time_sum (G : PGraph) (path : List ℕ) : ℚ :=
  ((path.zip path.tail).map (fun uv =>
    match get_edge_data G uv.1 uv.2 with
    | some e => edgeTimeH e
    | none => 0)).sum

/-- Spec-side formula: `cost = Σ weight`. -/
def spec_cost_sum (G : PGraph) (path : List ℕ) : ℚ :=
  ((path.zip path.tail).map (fun uv =>
    match get_edge_data G uv.1 uv.2 with
    | some e => edgeCost e
    | none => 0)).sum

/-- The metric fold of `_route_geometry_and_metrics` adds exactly the
per-edge sums to the initial accumulator (coords aside). -/
theorem metrics_fold (G : PGraph) (pairs : List (ℕ × ℕ)) (init : RouteMetrics) :
    (pairs.foldl (fun (m : RouteMetrics) uv =>
      match get_edge_data G uv.1 uv.2 with
      | none => m
      | some e =>
        { coords := m.coords ++ edgeCoords G uv.1 uv.2 e,
          exposure := m.exposure + edgeMeanUpes e * edgeLengthKm e,
          distance_km := m.distance_km + edgeLengthKm e,
          time_h := m.time_h + edgeTimeH e,
          cost := m.cost + edgeCost e }) init).exposure =
      init.exposure + ((pairs.map (fun uv =>
        match get_edge_data G uv.1 uv.2 with
        | some e => edgeMeanUpes e * edgeLengthKm e
        | none => 0)).sum) ∧
    (pairs.foldl (fun (m : RouteMetrics) uv =>
      match get_edge_data G uv.1 uv.2 with
      | none => m
      | some e =>
        { coords := m.coords ++ edgeCoords G uv.1 uv.2 e,
          exposure := m.exposure + edgeMeanUpes e * edgeLengthKm e,
          distance_km := m.distance_km + edgeLengthKm e,
          time_h := m.time_h + edgeTimeH e,
          cost := m.cost + edgeCost e }) init).distance_km =
      init.distance_km + ((pairs.map (fun uv =>
        match get_edge_data G uv.1 uv.2 with
        | some e => edgeLengthKm e
        | none => 0)).sum) ∧
    (pairs.foldl (fun (m : RouteMetrics) uv =>
      match get_edge_data G uv.1 uv.2 with
      | none => m
      | some e =>
        { coords := m.coords ++ edgeCoords G uv.1 uv.2 e,
          exposure := m.exposure + edgeMeanUpes e * edgeLengthKm e,
          distance_km := m.distance_km + edgeLengthKm e,
          time_h := m.time_h + edgeTimeH e,
          cost := m.cost + edgeCost e }) init).time_h =
      init.time_h + ((pairs.map (fun uv =>
        match get_edge_data G uv.1 uv.2 with
        | some e => edgeTimeH e
        | none => 0)).sum) ∧
    (pairs.foldl (fun (m : RouteMetrics) uv =>
      match get_edge_data G uv.1 uv.2 with
      | none => m
      | some e =>
        { coords := m.coords ++ edgeCoords G uv.1 uv.2 e,
          exposure := m.exposure + edgeMeanUpes e * edgeLengthKm e,
          distance_km := m.distance_km + edgeLengthKm e,
          time_h := m.time_h + edgeTimeH e,
          cost := m.cost + edgeCost e }) init).cost =
      init.cost + ((pairs.map (fun uv =>
        match get_edge_data G uv.1 uv.2 with
        | some e => edgeCost e
        | none => 0)).sum) := by
  induction pairs generalizing init with
  | nil => simp
  | cons uv rest ih =>
    simp only [List.foldl_cons, List.map_cons, List.sum_cons]
    cases h : get_edge_data G uv.1 uv.2 with
    | none =>
      obtain ⟨i1, i2, i3, i4⟩ := ih init
      exact ⟨by rw [i1]; ring, by rw [i2]; ring, by rw [i3]; ring, by rw [i4]; ring⟩
    | some e =>
      obtain ⟨i1, i2, i3, i4⟩ := ih
        { coords := init.coords ++ edgeCoords G uv.1 uv.2 e,
          exposure := init.exposure + edgeMeanUpes e * edgeLengthKm e,
          distance_km := init.distance_km + edgeLengthKm e,
          time_h := init.time_h + edgeTimeH e,
          cost := init.cost + edgeCost e }
      exact ⟨by rw [i1]; dsimp only; ring, by rw [i2]; dsimp only; ring,
             by rw [i3]; dsimp only; ring, by rw [i4]; dsimp only; ring⟩

/-- The four aggregate fields of `_route_geometry_and_metrics` are the
spec-side per-edge sums. -/
theorem route_metrics_are_sums (G : PGraph) (path : List ℕ) :
    (route_geometry_and_metrics G path).exposure = spec_exposure_sum G path ∧
    (route_geometry_and_metrics G path).distance_km = spec_distance_sum G path ∧
    (route_geometry_and_metrics G path).time_h = spec_time_sum G path ∧
    (route_geometry_and_metrics G path).cost = spec_cost_sum G path := by
  obtain ⟨h1, h2, h3, h4⟩ := metrics_fold G (path.zip path.tail)
    { coords := [], exposure := 0, distance_km := 0, time_h := 0, cost := 0 }
  unfold route_geometry_and_metrics spec_exposure_sum spec_distance_sum
    spec_time_sum spec_cost_sum
  dsimp only
  refine ⟨?_, ?_, ?_, ?_⟩
  · rw [h1]; ring
  · rw [h2]; ring
  · rw [h3]; ring
  · rw [h4]; ring

/-- `round(q, n)` of a nonnegative rational is nonnegative. -/
theorem pyRound_nonneg (q : ℚ) (n : ℕ) (h : 0 ≤ q) : 0 ≤ pyRound q n := by
  unfold pyRound roundHalfEven
  have h10 : (0 : ℚ) ≤ q * 10 ^ n := by positivity
  have hf : (0 : ℤ) ≤ ⌊q * 10 ^ n⌋ := Int.floor_nonneg.mpr h10
  have hpow : (0 : ℚ) < 10 ^ n := by positivity
  dsimp only
  split_ifs <;> apply div_nonneg _ (le_of_lt hpow) <;>
    first
    | exact_mod_cast hf
    | exact_mod_cast le_trans hf (Int.le.intro 1 rfl)

/-- Every edge record produced by `get_edge_data` is an edge of the
graph. -/
theorem get_edge_data_mem {G : PGraph} {u v : ℕ} {e : EdgeData}
    (h : get_edge_data G u v = some e) :
    ∃ ed ∈ G.edges, ed.2.2 = e := by
  unfold get_edge_data at h
  cases hfind : G.edges.find? (fun ed => ed.1 = u ∧ ed.2.1 = v) with
  | none => rw [hfind] at h; simp at h
  | some ed =>
    rw [hfind] at h
    simp only [Option.map_some'] at h
    exact ⟨ed, List.mem_of_find?_eq_some hfind, by injection h⟩

/-- The spec-side distance sum is nonnegative when every edge length is
nonnegative. -/
theorem spec_distance_nonneg (G : PGraph) (path : List ℕ)
    (hG : ∀ ed ∈ G.edges, 0 ≤ edgeLengthKm ed.2.2) :
    0 ≤ spec_distance_sum G path := by
  unfold spec_distance_sum
  apply List.sum_nonneg
  intro x hx
  obtain ⟨uv, _, rfl⟩ := List.mem_map.mp hx
  cases h : get_edge_data G uv.1 uv.2 with
  | none => simp [h]
  | some e =>
    simp only [h]
    obtain ⟨ed, hmem, rfl⟩ := get_edge_data_mem h
    exact hG ed hmem

/-- The spec-side time sum is nonnegative when every edge time is
nonnegative. -/
theorem spec_time_nonneg (G : PGraph) (path : List ℕ)
    (hG : ∀ ed ∈ G.edges, 0 ≤ edgeTimeH ed.2.2) :
    0 ≤ spec_time_sum G path := by
  unfold spec_time_sum
  apply List.sum_nonneg
  intro x hx
  obtain ⟨uv, _, rfl⟩ := List.mem_map.mp hx
  cases h : get_edge_data G uv.1 uv.2 with
  | none => simp [h]
  | some e =>
    simp only [h]
    obtain ⟨ed, hmem, rfl⟩ := get_edge_data_mem h
    exact hG ed hmem

/-- Every route returned by `shortest_path_optimized` is `mkRoute` of
its own node path. -/
theorem spo_is_mkRoute {G : PGraph} {olat olon dlat dlon : ℚ} {r : Route}
    (h : shortest_path_optimized G olat olon dlat dlon = some r) :
    r = mkRoute G r.nodes := by
  unfold shortest_path_optimized at h
  split at h
  · exact absurd h (by simp)
  · split at h
    · exact absurd h (by simp)
    · split at h
      · exact absurd h (by simp)
      · split at h
        · exact absurd h (by simp)
        · split at h
          · exact absurd h (by simp)
          · injection h with h
            subst h
            rfl

/-- Every route returned by `k_shortest_paths` is `mkRoute` of its own
node path. -/
theorem ksp_is_mkRoute {G : PGraph} {olat olon dlat dlon : ℚ} {k : ℕ} {r : Route}
    (h : r ∈ k_shortest_paths G olat olon dlat dlon k) :
    r = mkRoute G r.nodes := by
  unfold k_shortest_paths at h
  split at h
  · exact absurd h (List.not_mem_nil r)
  · split at h
    · exact absurd h (List.not_mem_nil r)
    · split at h
      · exact absurd h (List.not_mem_nil r)
      · obtain ⟨p, _, rfl⟩ := List.mem_map.mp h
        rfl

/-- The two-node graph whose single edge has no length or time
attributes (weight 1): the pathfinder's attribute defaults make its
route metrics zero. -/
def zeroEdgeGraph : PGraph :=
  { nodes := [(0, 0, 0), (1, 180, 0)],
    edges := [(0, 1, ⟨none, none, none, none, some 1, none⟩)] }

/-- Concrete evaluation of the pathfinder on `zeroEdgeGraph` from origin
(lat 0, lon 0) to destination (lat 0, lon 180). -/
theorem spo_zeroEdgeGraph_eval :
    shortest_path_optimized zeroEdgeGraph 0 0 0 180 =
      some (mkRoute zeroEdgeGraph [0, 1]) := by
  have h1 : nearest_node zeroEdgeGraph 0 0 = some 0 := by
    norm_num [nearest_node, zeroEdgeGraph, List.foldl_cons, List.foldl_nil]
  have h2 : nearest_node zeroEdgeGraph 0 180 = some 1 := by
    norm_num [nearest_node, zeroEdgeGraph, List.foldl_cons, List.foldl_nil]
  have h3 : simple_paths zeroEdgeGraph 0 1 = [[0, 1]] := rfl
  have h4 : nx_shortest_path zeroEdgeGraph 0 1 = some [0, 1] := by
    unfold nx_shortest_path
    rw [h3]
    rfl
  unfold shortest_path_optimized
  rw [if_neg (by decide : ¬zeroEdgeGraph.nodes.length = 0), h1, h2]
  dsimp only
  rw [h4]
  dsimp only
  rw [if_neg (by decide : ¬([0, 1] : List ℕ).length < 2)]

/-- The metric record of the zero-attribute edge route. -/
theorem metrics_zeroEdgeGraph :
    route_geometry_and_metrics zeroEdgeGraph [0, 1] =
      { coords := [(0, 0), (180, 0)], exposure := 0, distance_km := 0,
        time_h := 0, cost := 1 } := by
  norm_num [route_geometry_and_metrics, List.zip, get_edge_data, dedupeConsec,
    edgeCoords, node_xy, edgeTimeH, edgeLengthKm, edgeMeanUpes, edgeCost, pyOrQ,
    zeroEdgeGraph, List.find?, List.foldl_cons, List.foldl_nil]

/-- The repo's great-circle distance between (0, 0) and (0, 180). -/
theorem haversine_antipodal : haversine_km 0 0 0 180 = 6371 * Real.pi := by
  have r0 : radians 0 = 0 := by simp [radians]
  have r00 : radians (0 - 0) = 0 := by norm_num [radians]
  have r180 : radians (180 - 0) = Real.pi := by
    simp only [radians]
    norm_num
  simp only [haversine_km, r0, r00, r180]
  rw [show (0 : ℝ) / 2 = 0 by norm_num, Real.sin_zero, Real.cos_zero,
    Real.sin_pi_div_two]
  norm_num [Real.sqrt_one, Real.sqrt_zero, atan2]
  ring

/-- C2 counterexample: on `zeroEdgeGraph` the pathfinder returns a
nonempty route between origin (0, 0) and destination (0, 180) with
`distance_km = 0` and `time_min = 0`, while the straight-line
(great-circle) distance between the endpoints is `6371π > 0` km — so
neither `distance_km ≥ straight-line-km` nor `time_min > 0` holds. -/
theorem C2_counterexample_zero_metrics_route :
    (shortest_path_optimized zeroEdgeGraph 0 0 0 180).isSome ∧
    (shortest_path_optimized zeroEdgeGraph 0 0 0 180).map Route.distance_km = some 0 ∧
    (shortest_path_optimized zeroEdgeGraph 0 0 0 180).map Route.time_min = some 0 ∧
    haversine_km 0 0 0 180 = 6371 * Real.pi ∧
    (0 : ℝ) < 6371 * Real.pi := by
  refine ⟨?_, ?_, ?_, haversine_antipodal, by positivity⟩
  · rw [spo_zeroEdgeGraph_eval]; rfl
  · rw [spo_zeroEdgeGraph_eval]
    show some (pyRound (route_geometry_and_metrics zeroEdgeGraph [0, 1]).distance_km 4) = some 0
    rw [metrics_zeroEdgeGraph]
    norm_num [pyRound, roundHalfEven]
  · rw [spo_zeroEdgeGraph_eval]
    show some (pyRound ((route_geometry_and_metrics zeroEdgeGraph [0, 1]).time_h * 60) 2) = some 0
    rw [metrics_zeroEdgeGraph]
    norm_num [pyRound, roundHalfEven]

/-- C2 (amended): every route returned by `shortest_path_optimized` or
`k_shortest_paths` has `exposure = round(Σ mean_upes · length_km, 6)`,
`distance_km = round(Σ length_km, 4)`, `time_min = round(60 · Σ time_h,
2)` and `cost = round(Σ weight, 6)` over its path edges; and when every
edge has nonnegative effective length and time, `distance_km ≥ 0` and
`time_min ≥ 0`.  (The stronger bounds `distance_km ≥
straight-line-km(origin, destination)` and `time_min > 0` do not hold in
general: see the counterexample.) -/
theorem C2_route_aggregates :
    ∀ (G : PGraph) (origin_lat origin_lon dest_lat dest_lon : ℚ) (r : Route),
      (shortest_path_optimized G origin_lat origin_lon dest_lat dest_lon = some r ∨
        (∃ k, r ∈ k_shortest_paths G origin_lat origin_lon dest_lat dest_lon k)) →
      (r.exposure = pyRound (spec_exposure_sum G r.nodes) 6 ∧
       r.distance_km = pyRound (spec_distance_sum G r.nodes) 4 ∧
       r.time_min = pyRound (60 * spec_time_sum G r.nodes) 2 ∧
       r.cost = pyRound (spec_cost_sum G r.nodes) 6) ∧
      ((∀ ed ∈ G.edges, 0 ≤ edgeLengthKm ed.2.2 ∧ 0 ≤ edgeTimeH ed.2.2) →
        0 ≤ r.distance_km ∧ 0 ≤ r.time_min) := by
  intro G olat olon dlat dlon r hr
  have hmk : r = mkRoute G r.nodes := by
    rcases hr with h | ⟨k, h⟩
    · exact spo_is_mkRoute h
    · exact ksp_is_mkRoute h
  obtain ⟨p, rfl⟩ : ∃ p, r = mkRoute G p := ⟨r.nodes, hmk⟩
  obtain ⟨m1, m2, m3, m4⟩ := route_metrics_are_sums G p
  refine ⟨⟨?_, ?_, ?_, ?_⟩, ?_⟩
  · show pyRound (route_geometry_and_metrics G p).exposure 6 =
      pyRound (spec_exposure_sum G p) 6
    rw [m1]
  · show pyRound (route_geometry_and_metrics G p).distance_km 4 =
      pyRound (spec_distance_sum G p) 4
    rw [m2]
  · show pyRound ((route_geometry_and_metrics G p).time_h * 60) 2 =
      pyRound (60 * spec_time_sum G p) 2
    rw [m3, mul_comm]
  · show pyRound (route_geometry_and_metrics G p).cost 6 =
      pyRound (spec_cost_sum G p) 6
    rw [m4]
  · intro hG
    constructor
    · show 0 ≤ pyRound (route_geometry_and_metrics G p).distance_km 4
      rw [m2]
      exact pyRound_nonneg _ _ (spec_distance_nonneg G p (fun ed h => (hG ed h).1))
    · show 0 ≤ pyRound ((route_geometry_and_metrics G p).time_h * 60) 2
      rw [m3]
      exact pyRound_nonneg _ _
        (mul_nonneg (spec_time_nonneg G p (fun ed h => (hG ed h).2)) (by norm_num))

/-- Witness for C2 (amended) on the concrete two-node graph. -/
theorem C2_witness :
    0 ≤ (mkRoute zeroEdgeGraph [0, 1]).distance_km ∧
    0 ≤ (mkRoute zeroEdgeGraph [0, 1]).time_min ∧
    (mkRoute zeroEdgeGraph [0, 1]).cost =
      pyRound (spec_cost_sum zeroEdgeGraph [0, 1]) 6 := by
  have hG : ∀ ed ∈ zeroEdgeGraph.edges,
      0 ≤ edgeLengthKm ed.2.2 ∧ 0 ≤ edgeTimeH ed.2.2 := by
    intro ed hed
    simp only [zeroEdgeGraph, List.mem_singleton] at hed
    subst hed
    norm_num [edgeLengthKm, edgeTimeH, pyOrQ]
  have h := C2_route_aggregates zeroEdgeGraph 0 0 0 180
    (mkRoute zeroEdgeGraph [0, 1]) (Or.inl spo_zeroEdgeGraph_eval)
  exact ⟨(h.2 hG).1, (h.2 hG).2, h.1.2.2.2⟩

end Aeris
